import Mathlib

/-!
# Verification of the misinformation-investigation orchestrator

A shallow embedding, in Lean 4, of the investigation orchestrator and the
MCP client layer of the repository (`src/lib/orchestrator.ts`,
`src/client/McpClientManager.ts` and the embedded `lib/mcp-client.ts`).

Modelling conventions:
* JavaScript numbers appearing here (confidences, probabilities) are
  modelled as rationals (`ℚ`); instants (`Date` values / ISO timestamps)
  as natural numbers (their epoch value).
* JavaScript's falsy-default idiom `a || b` is modelled explicitly:
  for numbers `0` is falsy, for strings `""` is falsy, `undefined`/`null`
  are `Option.none`.
* SHA-256 and HMAC signing are external collaborators (spec section 1
  treats `Hash`/`Sign` as opaque stable primitives); they are modelled as
  ideal collision-free digests: the digest string embeds the hashed bytes,
  making the model injective by construction.  All claims concern *which*
  bytes are hashed, never the compression function itself.
* `JSON.stringify` is modelled by a small JSON syntax tree and a printer;
  keys are emitted in object-literal order and `undefined`-valued keys are
  omitted, as in V8.  Number rendering (`ratStr`) differs byte-wise from
  V8's decimal output but preserves the field structure faithfully.
* Asynchronous tool-server calls are modelled by an explicit environment
  (`Env`) recording the outcome each call site would observe; thrown
  exceptions become `Except.error` with the thrown message.
* `Array.prototype.sort` is a *stable in-place* sort in modern V8; the
  in-place mutation performed by `generateTimeline` is reflected by using
  the sorted list for every later use of the evidence array.
-/

/-! ## JavaScript falsy-default helpers -/

/-- `a || b` for JS numbers held in possibly-undefined slots: `0` is falsy
(the second operand is returned as-is, even if itself falsy). -/
def jsOrQ (a b : Option ℚ) : Option ℚ :=
  match a with
  | some q => if q = 0 then b else some q
  | none => b

/-- `a || d` for a JS number against a definite default: `0` and
`undefined` both fall through to `d`. -/
def jsD (a : Option ℚ) (d : ℚ) : ℚ :=
  match a with
  | some q => if q = 0 then d else q
  | none => d

/-- `a || d` for JS strings: `""` and `undefined` fall through. -/
def jsS (a : Option String) (d : String) : String :=
  match a with
  | some s => if s = "" then d else s
  | none => d

/-- `a || b` for JS strings where both operands may be undefined. -/
def jsOrS (a b : Option String) : Option String :=
  match a with
  | some s => if s = "" then b else some s
  | none => b

/-- `t` is a leading run of the character list. -/
def startsWithChars : List Char → List Char → Bool
  | [], _ => true
  | _ :: _, [] => false
  | c :: cs, d :: ds => c == d && startsWithChars cs ds

/-- Substring occurrence over character lists. -/
def hasSubChars (needle : List Char) : List Char → Bool
  | [] => startsWithChars needle []
  | d :: ds => startsWithChars needle (d :: ds) || hasSubChars needle ds

/-- `s.includes(t)` (case-sensitive substring test). -/
def containsStr (s t : String) : Bool :=
  hasSubChars t.data s.data

/-- `s.endsWith(t)`. -/
def endsWithStr (s t : String) : Bool :=
  startsWithChars t.data.reverse s.data.reverse

/-- `s.toLowerCase()`. -/
def lowerString (s : String) : String :=
  String.mk (s.data.map Char.toLower)

/-! ## Data model (from the TypeScript interfaces in `orchestrator.ts`) -/

inductive Verdict where
  | TRUE | FALSE | MIXED | UNVERIFIED
deriving DecidableEq, Repr, Inhabited

inductive EvidenceType where
  | fact_check | forensic | web_search | reverse_image | archive
deriving DecidableEq, Repr, Inhabited

inductive EventType where
  | first_appearance | modification | spread | fact_check
deriving DecidableEq, Repr, Inhabited

/-- The opaque `metadata: any` payload, restricted to the two keys the
orchestrator ever reads back (`thumbnail`, `media_snapshot` in
`generateTimeline`). -/
structure Metadata where
  thumbnail : Option String := none
  mediaSnapshot : Option String := none
deriving DecidableEq, Repr, Inhabited

structure EvidenceItem where
  id : String
  type : EvidenceType
  source : String
  content : String
  confidence : ℚ
  timestamp : Nat
  metadata : Metadata := {}
deriving DecidableEq, Repr, Inhabited

structure TimelineEvent where
  timestamp : Nat
  event_type : EventType
  description : String
  source : String
  confidence : ℚ
  media_snapshot : Option String
deriving DecidableEq, Repr, Inhabited

structure CounterfactualNarrative where
  narrative : String
  plausibility_score : ℚ
  evidence_gaps : List String
  citations : List String
deriving DecidableEq, Repr, Inhabited

inductive InteractiveElementType where
  | question | visual_comparison | audio_sample
deriving DecidableEq, Repr, Inhabited

structure InteractiveElement where
  type : InteractiveElementType
  content : String
  correct_answer : Option String := none
deriving DecidableEq, Repr, Inhabited

structure MicroLesson where
  technique : String
  explanation : String
  interactive_elements : List InteractiveElement
  duration_seconds : Nat
deriving DecidableEq, Repr, Inhabited

/-- A forensic tool-server payload; only the keys the orchestrator reads. -/
structure ForensicResult where
  tampering_probability : Option ℚ := none
  manipulationProbability : Option ℚ := none
  techniques_detected : Option (List String) := none
deriving DecidableEq, Repr, Inhabited

/-- One element of `factCheckResult.evidence` as consumed by the
orchestrator (`performFactCheck` / `performMediaAnalysis`). -/
structure RawEvidence where
  id : Option String := none
  source : String
  content : String
  confidence : ℚ
  timestamp : Nat
deriving DecidableEq, Repr, Inhabited

structure SignedArtifactBase where
  id : String
  sha256 : String
  signature : String
deriving DecidableEq, Repr, Inhabited

/-- The payload returned by the `check_claim` tool, as read (dynamically)
by the orchestrator. -/
structure FactCheckToolResult where
  verdict : Option Verdict := none
  confidence : Option ℚ := none
  explanation : Option String := none
  evidence : Option (List RawEvidence) := none
  techniques_detected : Option (List String) := none
  signedArtifact : Option SignedArtifactBase := none
deriving DecidableEq, Repr, Inhabited

/-- One element of `searchResult.results` in `performFactCheck`;
string absence is modelled by `""` (falsy either way under `||`). -/
structure SearchResult where
  url : String := ""
  source : String := ""
  snippet : String := ""
  content : String := ""
  relevance_score : Option ℚ := none
deriving DecidableEq, Repr, Inhabited

structure SearchToolResult where
  results : Option (List SearchResult) := none
deriving DecidableEq, Repr, Inhabited

/-- One element of `searchResult.matches` in `performMediaAnalysis`. -/
structure ReverseMatch where
  source_url : String
  description : String := ""
  similarity_score : Option ℚ := none
  first_seen : Option Nat := none
  thumbnail : Option String := none
deriving DecidableEq, Repr, Inhabited

structure ReverseToolResult where
  «matches» : Option (List ReverseMatch) := none
deriving DecidableEq, Repr, Inhabited

/-- The `ClaimReview` JSON-LD export built by `generateClaimReviewJsonLd`
(constant keys such as `@context` are emitted by the serializer). -/
structure JsonLdEvidence where
  url : String
  description : String
  datePublished : Nat
deriving DecidableEq, Repr, Inhabited

structure ClaimReviewJsonLd where
  url : String
  claimReviewed : String
  datePublished : Nat
  ratingValue : Nat
  alternateName : Option Verdict
  itemReviewedText : String
  itemReviewedDate : Nat
  evidence : List JsonLdEvidence
deriving DecidableEq, Repr, Inhabited

/-- `InvestigationResult.signed_artifact`: in the fact-check path the three
base fields are spread from a possibly-absent tool payload, hence optional. -/
structure SignedArtifact where
  id : Option String := none
  sha256 : Option String := none
  signature : Option String := none
  exportable_json_ld : Option ClaimReviewJsonLd := none
deriving DecidableEq, Repr, Inhabited

/-- `InvestigationResult` from `orchestrator.ts`. -/
structure Investigation where
  id : String
  verdict : Verdict
  confidence : ℚ
  explanation : String
  evidence_chain : List EvidenceItem
  forensic_analysis : Option ForensicResult := none
  timeline : Option (List TimelineEvent) := none
  techniques_detected : List String
  counterfactuals : List CounterfactualNarrative := []
  signed_artifact : SignedArtifact
  micro_lesson : Option MicroLesson := none
deriving DecidableEq, Repr, Inhabited

inductive RequestType where
  | fact_check | media_analysis | full_investigation
deriving DecidableEq, Repr, Inhabited

structure RequestContent where
  claim : Option String := none
  media_url : Option String := none
  context : Option String := none
  source_url : Option String := none
deriving DecidableEq, Repr, Inhabited

structure RequestOptions where
  include_forensics : Option Bool := none
  generate_lesson : Option Bool := none
  create_timeline : Option Bool := none
deriving DecidableEq, Repr, Inhabited

structure InvestigationRequest where
  type : RequestType
  content : RequestContent
  options : Option RequestOptions := none
deriving DecidableEq, Repr, Inhabited

/-- `request.options?.generate_lesson ? A : B` truthiness. -/
def optionsLesson (o : Option RequestOptions) : Bool :=
  match o with
  | some opts => opts.generate_lesson.getD false
  | none => false

/-! ## JSON values and `JSON.stringify` -/

inductive Json where
  | jnull
  | jbool (b : Bool)
  | jnum (q : ℚ)
  | jstr (s : String)
  | jarr (xs : List Json)
  | jobj (fields : List (String × Json))

/-- Decimal-free deterministic rendering of a rational (stands in for V8's
number printing; byte format differs, field structure does not). -/
def ratStr (q : ℚ) : String :=
  toString q.num ++ "/" ++ toString q.den

def jsonEscapeChar (c : Char) : String :=
  if c = '"' then "\\\""
  else if c = '\\' then "\\\\"
  else if c = '\n' then "\\n"
  else String.singleton c

def jsonEscape (s : String) : String :=
  String.join (s.toList.map jsonEscapeChar)

def jsonQuote (s : String) : String :=
  "\"" ++ jsonEscape s ++ "\""

mutual

def Json.render : Json → String
  | .jnull => "null"
  | .jbool b => if b then "true" else "false"
  | .jnum q => ratStr q
  | .jstr s => jsonQuote s
  | .jarr xs => "[" ++ Json.renderElems xs ++ "]"
  | .jobj fs => "\x7b" ++ Json.renderFields fs ++ "\x7d"

def Json.renderElems : List Json → String
  | [] => ""
  | [x] => x.render
  | x :: y :: xs => x.render ++ "," ++ Json.renderElems (y :: xs)

def Json.renderFields : List (String × Json) → String
  | [] => ""
  | [(k, v)] => jsonQuote k ++ ":" ++ v.render
  | (k, v) :: f :: fs => jsonQuote k ++ ":" ++ v.render ++ "," ++ Json.renderFields (f :: fs)

end

/-- A key that is omitted when its value is `undefined`
(`JSON.stringify` drops `undefined`-valued properties). -/
def optField (k : String) (v : Option Json) : List (String × Json) :=
  match v with
  | some j => [(k, j)]
  | none => []

/-! ## Cryptographic collaborators (spec section 1: out of scope, consumed
as stable `Hash`/`Sign` primitives).  Modelled as ideal collision-free
digests whose output embeds the hashed bytes, so the model is injective by
construction; every claim below concerns which bytes are hashed. -/

def computeSha256 (data : String) : String :=
  "sha256:" ++ data

/-- `process.env.SIGNING_SECRET || 'dev-secret'`, modelled at its default. -/
def signingSecret : String := "dev-secret"

def signArtifact (artifact : String) : String :=
  "hmac-sha256:" ++ signingSecret ++ ":" ++ artifact

/-! ## Generic first-occurrence deduplication (the `seen`-set filter of
`deduplicateEvidence`, also the insertion-ordered `Set` of
`extractTechniques`). -/

def dedupByGo {α κ : Type} (key : α → κ) [DecidableEq κ] (seen : List κ) : List α → List α
  | [] => []
  | x :: xs =>
    if key x ∈ seen then dedupByGo key seen xs
    else x :: dedupByGo key (key x :: seen) xs

def dedupBy {α κ : Type} (key : α → κ) [DecidableEq κ] (l : List α) : List α :=
  dedupByGo key [] l

/-! ## Stable sorting (`Array.prototype.sort` is stable in modern V8);
`le x y` models `comparator(x, y) <= 0`. -/

def jsSortInsert {α : Type} (le : α → α → Bool) (x : α) : List α → List α
  | [] => [x]
  | y :: ys => if le x y then x :: y :: ys else y :: jsSortInsert le x ys

def jsSort {α : Type} (le : α → α → Bool) : List α → List α
  | [] => []
  | x :: xs => jsSortInsert le x (jsSort le xs)

/-! ## EvidenceAggregator: the pure helper functions of
`InvestigationOrchestrator` (`orchestrator.ts`). -/

def verdictStr : Verdict → String
  | .TRUE => "TRUE"
  | .FALSE => "FALSE"
  | .MIXED => "MIXED"
  | .UNVERIFIED => "UNVERIFIED"

def evidenceTypeStr : EvidenceType → String
  | .fact_check => "fact_check"
  | .forensic => "forensic"
  | .web_search => "web_search"
  | .reverse_image => "reverse_image"
  | .archive => "archive"

def eventTypeStr : EventType → String
  | .first_appearance => "first_appearance"
  | .modification => "modification"
  | .spread => "spread"
  | .fact_check => "fact_check"

def isVideoUrl (url : String) : Bool :=
  ["mp4", "avi", "mov", "wmv", "flv", "webm"].any
      (fun e => endsWithStr (lowerString url) ("." ++ e))
    || containsStr url "video" || containsStr url "reel"

def isImageUrl (url : String) : Bool :=
  ["jpg", "jpeg", "png", "gif", "bmp", "webp"].any
      (fun e => endsWithStr (lowerString url) ("." ++ e))
    || containsStr url "image"

/-- `forensicResult.tampering_probability || forensicResult.manipulationProbability || 0`. -/
def tamperingProbOf (f : ForensicResult) : ℚ :=
  jsD (jsOrQ f.tampering_probability f.manipulationProbability) 0

def synthesizeVerdict (forensicResult : Option ForensicResult)
    (factCheckResult : Option FactCheckToolResult) : Verdict :=
  match factCheckResult.bind (fun fc => fc.verdict) with
  | some v => v
  | none =>
    match forensicResult with
    | some f =>
      let tamperingProb := tamperingProbOf f
      if tamperingProb > 7/10 then .FALSE
      else if tamperingProb > 3/10 then .MIXED
      else .UNVERIFIED
    | none => .UNVERIFIED

def calculateOverallConfidence (evidence : List EvidenceItem)
    (forensicResult : Option ForensicResult) : ℚ :=
  if evidence.length = 0 then 1/2
  else
    let avgEvidenceConfidence := (evidence.map (fun e => e.confidence)).sum / evidence.length
    match forensicResult with
    | some f =>
      let forensicConfidence :=
        1 - jsD (jsOrQ f.tampering_probability f.manipulationProbability) (1/2)
      (avgEvidenceConfidence + forensicConfidence) / 2
    | none => avgEvidenceConfidence

def synthesizeCombinedVerdict (mediaResult factCheckResult : Option Investigation) : Verdict :=
  let verdicts := (mediaResult.map (fun r => r.verdict)).toList
    ++ (factCheckResult.map (fun r => r.verdict)).toList
  if verdicts.contains .FALSE then .FALSE
  else if verdicts.contains .MIXED then .MIXED
  else if verdicts.contains .TRUE && verdicts.length == 1 then .TRUE
  else if verdicts.contains .TRUE && verdicts.contains .UNVERIFIED then .MIXED
  else .UNVERIFIED

def calculateCombinedConfidence (mediaResult factCheckResult : Option Investigation)
    (evidence : List EvidenceItem) : ℚ :=
  let confidences := (mediaResult.map (fun r => r.confidence)).toList
    ++ (factCheckResult.map (fun r => r.confidence)).toList
  if confidences.length = 0 then
    if evidence.length > 0 then (evidence.map (fun e => e.confidence)).sum / evidence.length
    else 1/2
  else confidences.sum / confidences.length

def extractTechniques (forensicResult : Option ForensicResult)
    (factCheckResult : Option FactCheckToolResult) : List String :=
  dedupBy id ((forensicResult.bind (fun f => f.techniques_detected)).getD []
    ++ (factCheckResult.bind (fun fc => fc.techniques_detected)).getD [])

/-- The deduplication key: `computeSha256(item.content + item.source)`. -/
def evidenceKey (item : EvidenceItem) : String :=
  computeSha256 (item.content ++ item.source)

def deduplicateEvidence (evidence : List EvidenceItem) : List EvidenceItem :=
  dedupBy evidenceKey evidence

def summarizeEvidenceItem (item : EvidenceItem) : String :=
  match item.type with
  | .fact_check => "Fact-check result: " ++ item.content.take 100 ++ "..."
  | .forensic => "Forensic analysis: " ++ item.content.take 100 ++ "..."
  | .web_search => "Web evidence: " ++ item.content.take 100 ++ "..."
  | .reverse_image => "Similar content found: " ++ item.content.take 100 ++ "..."
  | .archive => "Archive entry: " ++ item.content.take 100 ++ "..."

def sortByTimestamp (evidence : List EvidenceItem) : List EvidenceItem :=
  jsSort (fun a b => decide (a.timestamp ≤ b.timestamp)) evidence

def timelineEventType (t : EvidenceType) (index : Nat) : EventType :=
  if t = EvidenceType.fact_check then .fact_check
  else if t = EvidenceType.reverse_image ∧ index = 0 then .first_appearance
  else if t = EvidenceType.forensic then .modification
  else .spread

def mkTimelineEvent (item : EvidenceItem) (index : Nat) : TimelineEvent :=
  { timestamp := item.timestamp
    event_type := timelineEventType item.type index
    description := summarizeEvidenceItem item
    source := item.source
    confidence := item.confidence
    media_snapshot := jsOrS item.metadata.thumbnail item.metadata.mediaSnapshot }

def mkTimelineEvents (index : Nat) : List EvidenceItem → List TimelineEvent
  | [] => []
  | x :: xs => mkTimelineEvent x index :: mkTimelineEvents (index + 1) xs

def generateTimeline (evidence : List EvidenceItem) : List TimelineEvent :=
  mkTimelineEvents 0 (sortByTimestamp evidence)

def generateExplanation (verdict : Verdict) (evidence : List EvidenceItem)
    (forensicResult : Option ForensicResult) : String :=
  let base := "Investigation resulted in verdict: " ++ verdictStr verdict ++ ". "
    ++ "Analysis based on " ++ toString evidence.length ++ " evidence sources. "
  let withForensic :=
    match forensicResult with
    | some f =>
      match jsOrQ f.tampering_probability f.manipulationProbability with
      | some tamperingProb =>
        base ++ "Forensic analysis indicates " ++ toString (round (tamperingProb * 100))
          ++ "% probability of tampering. "
      | none => base
    | none => base
  let highConfidenceEvidence := evidence.filter (fun e => e.confidence > 4/5)
  if highConfidenceEvidence.length > 0 then
    withForensic ++ toString highConfidenceEvidence.length
      ++ " high-confidence evidence sources support this assessment."
  else withForensic

def generateCombinedExplanation (verdict : Verdict) (evidence : List EvidenceItem)
    (mediaResult factCheckResult : Option Investigation) : String :=
  let base := "Comprehensive investigation resulted in verdict: " ++ verdictStr verdict ++ ". "
  let mode :=
    match mediaResult, factCheckResult with
    | some _, some _ => "Combined analysis of media forensics and fact-checking. "
    | some _, none => "Based on media forensic analysis. "
    | none, some _ => "Based on fact-checking analysis. "
    | none, none => ""
  let withTotal := base ++ mode ++ "Total evidence sources: " ++ toString evidence.length ++ ". "
  match mediaResult.bind (fun m => m.forensic_analysis) with
  | some f =>
    match jsOrQ f.tampering_probability f.manipulationProbability with
    | some tamperingProb =>
      withTotal ++ "Media tampering probability: " ++ toString (round (tamperingProb * 100)) ++ "%. "
    | none => withTotal
  | none => withTotal

def generateCounterfactuals (claim : String) (evidence : List EvidenceItem) :
    List CounterfactualNarrative :=
  let baseNarrative := "Alternative interpretation: " ++ claim ++ " could be accurate if"
  let c1 : CounterfactualNarrative :=
    { narrative := baseNarrative ++ " the evidence sources are incomplete or biased."
      plausibility_score := 3/10
      evidence_gaps := ["Missing primary sources", "Limited fact-checker coverage"]
      citations := (evidence.take 2).map (fun e => e.source) }
  let c2 : List CounterfactualNarrative :=
    if evidence.any (fun e => e.type == EvidenceType.forensic) then
      [{ narrative := baseNarrative
           ++ " the forensic analysis has false positives due to compression artifacts."
         plausibility_score := 2/5
         evidence_gaps := ["Technical analysis limitations", "Compression effects"]
         citations := (evidence.filter (fun e => e.type == EvidenceType.forensic)).map
           (fun e => e.source) }]
    else []
  let c3 : CounterfactualNarrative :=
    { narrative := baseNarrative ++ " the context or timing has been misunderstood."
      plausibility_score := 1/2
      evidence_gaps := ["Historical context", "Timeline verification"]
      citations := (evidence.drop (evidence.length - 2)).map (fun e => e.source) }
  jsSort (fun a b => decide (b.plausibility_score ≤ a.plausibility_score)) (c1 :: c2 ++ [c3])

def lessonMisinformation : MicroLesson :=
  { technique := "Misinformation Detection"
    explanation :=
      "Learn to identify common signs of misinformation by checking sources, dates, and context."
    interactive_elements :=
      [ { type := .question
          content := "What should you check first when evaluating a claim?"
          correct_answer := some "The original source and publication date" }
      , { type := .visual_comparison
          content :=
            "Compare these two versions of the same story - what differences do you notice?" } ]
    duration_seconds := 45 }

def lessonMediaManipulation : MicroLesson :=
  { technique := "Media Manipulation Detection"
    explanation :=
      "Understand how to spot digitally altered images and videos using forensic techniques."
    interactive_elements :=
      [ { type := .visual_comparison
          content := "Examine these compression artifacts - what do they tell us about editing?" }
      , { type := .question
          content := "Which technique is most reliable for detecting image manipulation?"
          correct_answer :=
            some "Error Level Analysis (ELA) combined with metadata examination" } ]
    duration_seconds := 40 }

def lessonComprehensive : MicroLesson :=
  { technique := "Comprehensive Fact Checking"
    explanation :=
      "Master the complete fact-checking process from initial assessment to final verification."
    interactive_elements :=
      [ { type := .question
          content := "What is the most important step in comprehensive fact-checking?"
          correct_answer := some "Cross-referencing multiple independent sources" }
      , { type := .visual_comparison
          content := "Review this evidence chain - how would you rate its reliability?" } ]
    duration_seconds := 50 }

def createMicroLesson (technique : String) : MicroLesson :=
  if technique = "misinformation_detection" then lessonMisinformation
  else if technique = "media_manipulation_detection" then lessonMediaManipulation
  else if technique = "comprehensive_fact_checking" then lessonComprehensive
  else lessonMisinformation

def verdictToRating : Verdict → Nat
  | .TRUE => 5
  | .MIXED => 3
  | .FALSE => 1
  | .UNVERIFIED => 2

/-- `verdictToRating` as applied to a possibly-undefined verdict string:
the switch's `default` clause yields 2. -/
def verdictToRatingOpt : Option Verdict → Nat
  | some v => verdictToRating v
  | none => 2

def generateClaimReviewJsonLd (claim : String) (verdict : Option Verdict) (_confidence : ℚ)
    (evidence : List EvidenceItem) (now : Nat) (gid : String) : ClaimReviewJsonLd :=
  { url := "https://factcheck-platform.example.com/review/" ++ gid
    claimReviewed := claim
    datePublished := now
    ratingValue := verdictToRatingOpt verdict
    alternateName := verdict
    itemReviewedText := claim
    itemReviewedDate := now
    evidence := (evidence.take 5).map (fun e =>
      { url := e.source
        description := e.content.take 200
        datePublished := e.timestamp }) }

/-! ## `JSON.stringify` views of the data model (keys in object-literal
order; `undefined` keys omitted, `null` values kept). -/

def metadataJson (m : Metadata) : Json :=
  .jobj (optField "thumbnail" (m.thumbnail.map .jstr)
    ++ optField "media_snapshot" (m.mediaSnapshot.map .jstr))

def evidenceItemJson (e : EvidenceItem) : Json :=
  .jobj [ ("id", .jstr e.id)
        , ("type", .jstr (evidenceTypeStr e.type))
        , ("source", .jstr e.source)
        , ("content", .jstr e.content)
        , ("confidence", .jnum e.confidence)
        , ("timestamp", .jnum e.timestamp)
        , ("metadata", metadataJson e.metadata) ]

def forensicResultJson (f : ForensicResult) : Json :=
  .jobj (optField "tampering_probability" (f.tampering_probability.map .jnum)
    ++ optField "manipulationProbability" (f.manipulationProbability.map .jnum)
    ++ optField "techniques_detected"
        ((f.techniques_detected.map (fun ts => Json.jarr (ts.map .jstr)))))

def rawEvidenceJson (r : RawEvidence) : Json :=
  .jobj (optField "id" (r.id.map .jstr)
    ++ [ ("source", .jstr r.source)
       , ("content", .jstr r.content)
       , ("confidence", .jnum r.confidence)
       , ("timestamp", .jnum r.timestamp) ])

def signedArtifactBaseJson (s : SignedArtifactBase) : Json :=
  .jobj [ ("id", .jstr s.id), ("sha256", .jstr s.sha256), ("signature", .jstr s.signature) ]

def factCheckToolResultJson (fc : FactCheckToolResult) : Json :=
  .jobj (optField "verdict" ((fc.verdict.map (fun v => Json.jstr (verdictStr v))))
    ++ optField "confidence" (fc.confidence.map .jnum)
    ++ optField "explanation" (fc.explanation.map .jstr)
    ++ optField "evidence" (fc.evidence.map (fun es => Json.jarr (es.map rawEvidenceJson)))
    ++ optField "techniques_detected"
        (fc.techniques_detected.map (fun ts => Json.jarr (ts.map .jstr)))
    ++ optField "signedArtifact" (fc.signedArtifact.map signedArtifactBaseJson))

def timelineEventJson (t : TimelineEvent) : Json :=
  .jobj ([ ("timestamp", .jnum t.timestamp)
         , ("event_type", .jstr (eventTypeStr t.event_type))
         , ("description", .jstr t.description)
         , ("source", .jstr t.source)
         , ("confidence", .jnum t.confidence) ]
    ++ optField "media_snapshot" (t.media_snapshot.map .jstr))

def counterfactualJson (c : CounterfactualNarrative) : Json :=
  .jobj [ ("narrative", .jstr c.narrative)
        , ("plausibility_score", .jnum c.plausibility_score)
        , ("evidence_gaps", .jarr (c.evidence_gaps.map .jstr))
        , ("citations", .jarr (c.citations.map .jstr)) ]

def interactiveElementTypeStr : InteractiveElementType → String
  | .question => "question"
  | .visual_comparison => "visual_comparison"
  | .audio_sample => "audio_sample"

def interactiveElementJson (e : InteractiveElement) : Json :=
  .jobj ([ ("type", .jstr (interactiveElementTypeStr e.type))
         , ("content", .jstr e.content) ]
    ++ optField "correct_answer" (e.correct_answer.map .jstr))

def microLessonJson (m : MicroLesson) : Json :=
  .jobj [ ("technique", .jstr m.technique)
        , ("explanation", .jstr m.explanation)
        , ("interactive_elements", .jarr (m.interactive_elements.map interactiveElementJson))
        , ("duration_seconds", .jnum m.duration_seconds) ]

def jsonLdEvidenceJson (e : JsonLdEvidence) : Json :=
  .jobj [ ("@type", .jstr "WebPage")
        , ("url", .jstr e.url)
        , ("description", .jstr e.description)
        , ("datePublished", .jnum e.datePublished) ]

def claimReviewJsonLdJson (c : ClaimReviewJsonLd) : Json :=
  .jobj [ ("@context", .jstr "https://schema.org")
        , ("@type", .jstr "ClaimReview")
        , ("url", .jstr c.url)
        , ("claimReviewed", .jstr c.claimReviewed)
        , ("author", .jobj [ ("@type", .jstr "Organization")
                           , ("name", .jstr "AI Fact-Check Platform")
                           , ("url", .jstr "https://factcheck-platform.example.com") ])
        , ("datePublished", .jnum c.datePublished)
        , ("reviewRating", .jobj ([ ("@type", .jstr "Rating")
                                  , ("ratingValue", .jnum c.ratingValue)
                                  , ("bestRating", .jnum 5)
                                  , ("worstRating", .jnum 1) ]
            ++ optField "alternateName" (c.alternateName.map (fun v => Json.jstr (verdictStr v)))))
        , ("itemReviewed", .jobj [ ("@type", .jstr "Claim")
                                 , ("text", .jstr c.itemReviewedText)
                                 , ("datePublished", .jnum c.itemReviewedDate) ])
        , ("evidence", .jarr (c.evidence.map jsonLdEvidenceJson)) ]

def signedArtifactJson (s : SignedArtifact) : Json :=
  .jobj (optField "id" (s.id.map .jstr)
    ++ optField "sha256" (s.sha256.map .jstr)
    ++ optField "signature" (s.signature.map .jstr)
    ++ [ ("exportable_json_ld",
          (s.exportable_json_ld.map claimReviewJsonLdJson).getD .jnull) ])

def investigationJson (inv : Investigation) : Json :=
  .jobj ([ ("id", .jstr inv.id)
         , ("verdict", .jstr (verdictStr inv.verdict))
         , ("confidence", .jnum inv.confidence)
         , ("explanation", .jstr inv.explanation)
         , ("evidence_chain", .jarr (inv.evidence_chain.map evidenceItemJson)) ]
    ++ optField "forensic_analysis" (inv.forensic_analysis.map forensicResultJson)
    ++ optField "timeline" (inv.timeline.map (fun tl => Json.jarr (tl.map timelineEventJson)))
    ++ [ ("techniques_detected", .jarr (inv.techniques_detected.map .jstr))
       , ("counterfactuals", .jarr (inv.counterfactuals.map counterfactualJson))
       , ("signed_artifact", signedArtifactJson inv.signed_artifact) ]
    ++ optField "micro_lesson" (inv.micro_lesson.map microLessonJson))

/-- The `artifactData` of `performMediaAnalysis` (orchestrator.ts:328):
`JSON.stringify({ media_url, claim, forensicAnalysis, factCheckResult,
evidence, timestamp })`; `claim` is omitted when `undefined`, the two
`null`-initialised locals serialize as `null`. -/
def mediaArtifactJson (media_url : String) (claim : Option String)
    (forensicAnalysis : Option ForensicResult)
    (factCheckResult : Option FactCheckToolResult)
    (evidence : List EvidenceItem) (timestamp : Nat) : Json :=
  .jobj ([ ("media_url", .jstr media_url) ]
    ++ optField "claim" (claim.map .jstr)
    ++ [ ("forensicAnalysis", (forensicAnalysis.map forensicResultJson).getD .jnull)
       , ("factCheckResult", (factCheckResult.map factCheckToolResultJson).getD .jnull)
       , ("evidence", .jarr (evidence.map evidenceItemJson))
       , ("timestamp", .jnum timestamp) ])

/-- The `artifactData` of `performFullInvestigation` (orchestrator.ts:418):
`JSON.stringify({ claim, media_url, mediaAnalysis: mediaResult?.forensic_analysis,
factCheckAnalysis: factCheckResult, evidence: uniqueEvidence, timestamp })`;
`claim`/`media_url` are omitted when `undefined`.  `mediaAnalysis` is
two-levelled: the key is omitted only when no media sub-run occurred
(`mediaResult` is `null`, so `?.` yields `undefined`); when a media
sub-run occurred its `forensic_analysis` is `null`-initialised
(orchestrator.ts:222), so an absent forensic result serializes as
`"mediaAnalysis":null`.  `factCheckAnalysis` serializes as `null` when
absent. -/
def fullArtifactJson (claim media_url : Option String)
    (mediaAnalysis : Option (Option ForensicResult))
    (factCheckAnalysis : Option Investigation)
    (evidence : List EvidenceItem) (timestamp : Nat) : Json :=
  .jobj (optField "claim" (claim.map .jstr)
    ++ optField "media_url" (media_url.map .jstr)
    ++ optField "mediaAnalysis"
        (mediaAnalysis.map (fun f => (f.map forensicResultJson).getD .jnull))
    ++ [ ("factCheckAnalysis", (factCheckAnalysis.map investigationJson).getD .jnull)
       , ("evidence", .jarr (evidence.map evidenceItemJson))
       , ("timestamp", .jnum timestamp) ])

/-- `a || b` for definite JS strings (`""` falsy). -/
def jsOrStr (a b : String) : String :=
  if a = "" then b else a

/-- Template-literal rendering of `tp || mp`
(`undefined` interpolates as the text "undefined"). -/
def optNumStr : Option ℚ → String
  | some q => ratStr q
  | none => "undefined"

/-! ## The orchestrator's id-keyed investigation store
(`investigationHistory : Map<string, InvestigationResult>`; a JS `Map`
keeps insertion order, and `set` on an existing key updates in place). -/

abbrev Store := List (String × Investigation)

/-- `Map.set`: update in place when the key is present (a JS `Map` keeps
the original insertion position), append otherwise. -/
def storeSet : Store → String → Investigation → Store
  | [], k, v => [(k, v)]
  | p :: rest, k, v => if p.1 = k then (k, v) :: rest else p :: storeSet rest k v

def storeGet (store : Store) (k : String) : Option Investigation :=
  (store.find? (fun p => decide (p.1 = k))).map (fun p => p.2)

/-! ## The call environment: the outcome every external interaction of one
`investigate` run would observe.  A `none` client models
`this.clients.get(name)` returning `undefined`; `some (.error e)` models
the corresponding `callTool` throwing with message `e`. -/

structure Env where
  /-- `new Date()` during this run. -/
  now : Nat
  /-- `generateId()` output (randomness modelled as one fresh value). -/
  genId : String
  /-- `generateInvestigationId()` output. -/
  invId : String
  factcheck : Option (Except String FactCheckToolResult) := none
  webSearch : Option (Except String SearchToolResult) := none
  forensics : Option (Except String (List ForensicResult)) := none
  reverseSearch : Option (Except String ReverseToolResult) := none

/-! ## The pipeline (`performFactCheck`, `performMediaAnalysis`,
`performFullInvestigation`, `investigate`).  Each `perform*` stores its
result only as its final step; thrown errors leave the store untouched by
that call.  `generateTimeline`'s in-place `Array.prototype.sort` means
every use of the evidence array after the timeline step sees it in
sorted order. -/

def factInvestigation (id claim : String) (req : InvestigationRequest) (env : Env)
    (factCheckResult : FactCheckToolResult) : Investigation :=
  let evidenceFromFc := ((factCheckResult.evidence).getD []).map (fun item =>
    { id := jsS item.id env.genId
      type := EvidenceType.fact_check
      source := item.source
      content := item.content
      confidence := item.confidence
      timestamp := item.timestamp
      metadata := {} : EvidenceItem })
  let evidenceFromWeb :=
    match env.webSearch with
    | some (.ok searchResult) =>
      ((searchResult.results.getD []).take 5).map (fun r =>
        { id := env.genId
          type := EvidenceType.web_search
          source := jsOrStr r.url r.source
          content := jsOrStr r.snippet r.content
          confidence := jsD r.relevance_score (7/10)
          timestamp := env.now
          metadata := {} : EvidenceItem })
    | _ => []
  let evidence := evidenceFromFc ++ evidenceFromWeb
  let sortedEvidence := sortByTimestamp evidence
  let timeline := mkTimelineEvents 0 sortedEvidence
  let counterfactuals := generateCounterfactuals claim sortedEvidence
  let microLesson :=
    if optionsLesson req.options then
      some (createMicroLesson
        (jsS (factCheckResult.techniques_detected.getD []).head? "misinformation_detection"))
    else none
  let exportableJsonLd := generateClaimReviewJsonLd claim factCheckResult.verdict
    (jsD factCheckResult.confidence (1/2)) sortedEvidence env.now env.genId
  { id := id
    verdict := factCheckResult.verdict.getD .UNVERIFIED
    confidence := jsD factCheckResult.confidence (1/2)
    explanation := jsS factCheckResult.explanation "Analysis completed"
    evidence_chain := sortedEvidence
    forensic_analysis := none
    timeline := some timeline
    techniques_detected := factCheckResult.techniques_detected.getD []
    counterfactuals := counterfactuals
    signed_artifact :=
      match factCheckResult.signedArtifact with
      | some b =>
        { id := some b.id, sha256 := some b.sha256, signature := some b.signature
          exportable_json_ld := some exportableJsonLd }
      | none => { exportable_json_ld := some exportableJsonLd }
    micro_lesson := microLesson }

def factOutcome (id : String) (req : InvestigationRequest) (env : Env) :
    Except String Investigation :=
  match req.content.claim with
  | none => .error "Claim is required for fact-checking"
  | some claim =>
    match env.factcheck with
    | none => .error "FactCheck MCP server not available"
    | some (.error e) => .error e
    | some (.ok fc) => .ok (factInvestigation id claim req env fc)

def performFactCheck (id : String) (req : InvestigationRequest) (env : Env) (store : Store) :
    Except String Investigation × Store :=
  match factOutcome id req env with
  | .error e => (.error e, store)
  | .ok result => (.ok result, storeSet store id result)

/-- Step 1 of `performMediaAnalysis`: the forensic tool call, wrapped in a
`try`/`catch` that swallows failures (degrading to no forensic result). -/
def mediaForensicOf (media_url : String) (env : Env) : Option ForensicResult :=
  match env.forensics with
  | none => none
  | some out =>
    if isVideoUrl media_url then (match out with | .ok l => l.head? | .error _ => none)
    else if isImageUrl media_url then (match out with | .ok l => l.head? | .error _ => none)
    else none

/-- Step 3 of `performMediaAnalysis`: the `check_claim` call is *not*
wrapped in a `try`, so a thrown error propagates out of the whole
media-analysis pipeline. -/
def mediaFactCheckOf (req : InvestigationRequest) (env : Env) :
    Except String (Option FactCheckToolResult) :=
  match req.content.claim with
  | none => .ok none
  | some _ =>
    match env.factcheck with
    | none => .ok none
    | some (.ok fc) => .ok (some fc)
    | some (.error e) => .error e

def mediaInvestigation (id media_url : String) (req : InvestigationRequest) (env : Env)
    (factCheckResult : Option FactCheckToolResult) : Investigation :=
  let forensicAnalysis := mediaForensicOf media_url env
  let evidenceForensic :=
    match forensicAnalysis with
    | some f =>
      [{ id := env.genId
         type := EvidenceType.forensic
         source := "forensic_analysis"
         content := "Forensic analysis completed. Tampering probability: "
           ++ optNumStr (jsOrQ f.tampering_probability f.manipulationProbability)
         confidence := 1 - tamperingProbOf f
         timestamp := env.now
         metadata := {} : EvidenceItem }]
    | none => []
  let evidenceReverse :=
    match env.reverseSearch with
    | some (.ok searchResult) =>
      ((searchResult.matches.getD []).take 5).map (fun m =>
        { id := env.genId
          type := EvidenceType.reverse_image
          source := m.source_url
          content := "Similar image found: " ++ jsOrStr m.description "No description"
          confidence := jsD m.similarity_score (7/10)
          timestamp := m.first_seen.getD env.now
          metadata := { thumbnail := m.thumbnail } : EvidenceItem })
    | _ => []
  let evidenceFromFc := ((factCheckResult.bind (fun fc => fc.evidence)).getD []).map (fun item =>
    { id := jsS item.id env.genId
      type := EvidenceType.fact_check
      source := item.source
      content := item.content
      confidence := item.confidence
      timestamp := item.timestamp
      metadata := {} : EvidenceItem })
  let evidence := evidenceForensic ++ evidenceReverse ++ evidenceFromFc
  let verdict := synthesizeVerdict forensicAnalysis factCheckResult
  let confidence := calculateOverallConfidence evidence forensicAnalysis
  let sortedEvidence := sortByTimestamp evidence
  let timeline := mkTimelineEvents 0 sortedEvidence
  let techniques := extractTechniques forensicAnalysis factCheckResult
  let counterfactuals :=
    match req.content.claim with
    | some claim => generateCounterfactuals claim sortedEvidence
    | none => []
  let microLesson :=
    if optionsLesson req.options then
      some (createMicroLesson (jsS techniques.head? "media_manipulation_detection"))
    else none
  let artifactData := (mediaArtifactJson media_url req.content.claim forensicAnalysis
    factCheckResult sortedEvidence env.now).render
  let exportableJsonLd :=
    match req.content.claim with
    | some claim =>
      some (generateClaimReviewJsonLd claim (some verdict) confidence sortedEvidence
        env.now env.genId)
    | none => none
  { id := id
    verdict := verdict
    confidence := confidence
    explanation := generateExplanation verdict sortedEvidence forensicAnalysis
    evidence_chain := sortedEvidence
    forensic_analysis := forensicAnalysis
    timeline := some timeline
    techniques_detected := techniques
    counterfactuals := counterfactuals
    signed_artifact :=
      { id := some env.genId
        sha256 := some (computeSha256 artifactData)
        signature := some (signArtifact artifactData)
        exportable_json_ld := exportableJsonLd }
    micro_lesson := microLesson }

def mediaOutcome (id : String) (req : InvestigationRequest) (env : Env) :
    Except String Investigation :=
  match req.content.media_url with
  | none => .error "Media URL is required for media analysis"
  | some media_url =>
    match mediaFactCheckOf req env with
    | .error e => .error e
    | .ok fcOpt => .ok (mediaInvestigation id media_url req env fcOpt)

def performMediaAnalysis (id : String) (req : InvestigationRequest) (env : Env)
    (store : Store) : Except String Investigation × Store :=
  match mediaOutcome id req env with
  | .error e => (.error e, store)
  | .ok result => (.ok result, storeSet store id result)

def mediaSubRequest (req : InvestigationRequest) (media_url : String) : InvestigationRequest :=
  { type := .media_analysis
    content := { media_url := some media_url, claim := req.content.claim
                 context := req.content.context }
    options := some { generate_lesson := some false } }

def factSubRequest (req : InvestigationRequest) (claim : String) : InvestigationRequest :=
  { type := .fact_check
    content := { claim := some claim, media_url := req.content.media_url
                 context := req.content.context }
    options := some { generate_lesson := some false } }

def fullCombine (id : String) (req : InvestigationRequest) (env : Env)
    (mediaResult factCheckResult : Option Investigation) : Investigation :=
  let combinedEvidence := (mediaResult.map (fun r => r.evidence_chain)).getD []
    ++ (factCheckResult.map (fun r => r.evidence_chain)).getD []
  let uniqueEvidence := deduplicateEvidence combinedEvidence
  let verdict := synthesizeCombinedVerdict mediaResult factCheckResult
  let confidence := calculateCombinedConfidence mediaResult factCheckResult uniqueEvidence
  let sortedUnique := sortByTimestamp uniqueEvidence
  let timeline := mkTimelineEvents 0 sortedUnique
  let techniques := dedupBy (fun t => t)
    ((mediaResult.map (fun r => r.techniques_detected)).getD []
      ++ (factCheckResult.map (fun r => r.techniques_detected)).getD [])
  let counterfactuals :=
    match req.content.claim with
    | some claim => generateCounterfactuals claim sortedUnique
    | none => []
  let microLesson :=
    if optionsLesson req.options then
      some (createMicroLesson (jsS techniques.head? "comprehensive_fact_checking"))
    else none
  let artifactData := (fullArtifactJson req.content.claim req.content.media_url
    (mediaResult.map (fun r => r.forensic_analysis)) factCheckResult sortedUnique
    env.now).render
  let exportableJsonLd :=
    match req.content.claim with
    | some claim =>
      some (generateClaimReviewJsonLd claim (some verdict) confidence sortedUnique
        env.now env.genId)
    | none => none
  { id := id
    verdict := verdict
    confidence := confidence
    explanation := generateCombinedExplanation verdict sortedUnique mediaResult factCheckResult
    evidence_chain := sortedUnique
    forensic_analysis := mediaResult.bind (fun r => r.forensic_analysis)
    timeline := some timeline
    techniques_detected := techniques
    counterfactuals := counterfactuals
    signed_artifact :=
      { id := some env.genId
        sha256 := some (computeSha256 artifactData)
        signature := some (signArtifact artifactData)
        exportable_json_ld := exportableJsonLd }
    micro_lesson := microLesson }

def performFullInvestigation (id : String) (req : InvestigationRequest) (env : Env)
    (store : Store) : Except String Investigation × Store :=
  if req.content.claim = none ∧ req.content.media_url = none then
    (.error "Either claim or media_url is required for full investigation", store)
  else
    let mediaStep : Except String (Option Investigation × Store) :=
      match req.content.media_url with
      | none => .ok (none, store)
      | some media_url =>
        match mediaOutcome (id ++ "-media") (mediaSubRequest req media_url) env with
        | .error e => .error e
        | .ok inv => .ok (some inv, storeSet store (id ++ "-media") inv)
    match mediaStep with
    | .error e => (.error e, store)
    | .ok (mediaResult, store₁) =>
      let factStep : Except String (Option Investigation × Store) :=
        match req.content.claim with
        | none => .ok (none, store₁)
        | some claim =>
          match factOutcome (id ++ "-fact") (factSubRequest req claim) env with
          | .error e => .error e
          | .ok inv => .ok (some inv, storeSet store₁ (id ++ "-fact") inv)
      match factStep with
      | .error e => (.error e, store₁)
      | .ok (factCheckResult, store₂) =>
        let result := fullCombine id req env mediaResult factCheckResult
        (.ok result, storeSet store₂ id result)

/-- `investigate`: dispatch on the request type.  The surrounding
`try`/`catch` logs and rethrows the *same* error object unchanged, so it
is the identity on outcomes. -/
def investigate (req : InvestigationRequest) (env : Env) (store : Store) :
    Except String Investigation × Store :=
  match req.type with
  | .fact_check => performFactCheck env.invId req env store
  | .media_analysis => performMediaAnalysis env.invId req env store
  | .full_investigation => performFullInvestigation env.invId req env store

def getInvestigation (store : Store) (id : String) : Option Investigation :=
  storeGet store id

def listInvestigations (store : Store) : List String :=
  store.map (fun p => p.1)

structure ExportData where
  investigation : Investigation
  exportFormat : String
  exportedAt : Nat
  verificationSignature : Option String
  verificationHash : Option String
deriving DecidableEq, Repr, Inhabited

def exportInvestigation (store : Store) (id : String) (now : Nat) :
    Except String ExportData :=
  match storeGet store id with
  | none => .error ("Investigation " ++ id ++ " not found")
  | some inv =>
    .ok { investigation := inv
          exportFormat := "ClaimReview+Evidence"
          exportedAt := now
          verificationSignature := inv.signed_artifact.signature
          verificationHash := inv.signed_artifact.sha256 }

/-! ## The MCP client (`lib/mcp-client.ts` / `src/client/McpClient.ts`) -/

/-- `McpClient` connection state: `isConnected` is the liveness flag,
`hasProcess` models `serverProcess !== null`, `processKilled` models
`serverProcess?.killed`, and `availableTools` is the cached catalog
loaded at connect time. -/
structure McpClient where
  serverName : String
  isConnected : Bool
  hasProcess : Bool
  processKilled : Bool
  availableTools : List String
deriving DecidableEq, Repr, Inhabited

inductive CallErr where
  /-- "MCP client NAME is not connected" -/
  | notConnected (server : String)
  /-- "Tool TOOL not found in NAME. ..." -/
  | toolNotFound (tool server : String)
  /-- any error thrown while performing the request
  ("Tool call error: ..." or a transport failure) -/
  | remote (msg : String)
deriving DecidableEq, Repr, Inhabited

/-- `McpClient.callTool`: the two guard clauses run before any request is
issued; only then is the network (`net`, the outcome the request/response
round trip would produce) consulted.  On a thrown call error the `catch`
block flips the liveness flag when the subprocess is gone. -/
def McpClient.callTool (c : McpClient) (toolName : String)
    (net : Except String String) : Except CallErr String × McpClient :=
  if !c.isConnected then
    (.error (.notConnected c.serverName), c)
  else if !(c.availableTools.contains toolName) then
    (.error (.toolNotFound toolName c.serverName), c)
  else
    match net with
    | .ok payload => (.ok payload, c)
    | .error e =>
      let c' := if c.processKilled || !c.isConnected then
        { c with isConnected := false } else c
      (.error (.remote e), c')

/-- `McpClient.ping`: returns `false` without a round trip when not
connected or without a live subprocess, otherwise reports the round
trip's success (`net`); it never throws and touches no state. -/
def McpClient.ping (c : McpClient) (net : Bool) : Bool × McpClient :=
  if !c.isConnected || !c.hasProcess then (false, c)
  else (net, c)

/-! ## The MCP client manager (`src/client/McpClientManager.ts`) -/

structure McpServerConfig where
  name : String
  command : String
  args : List String
  timeout : Option Nat := none
deriving DecidableEq, Repr, Inhabited

structure McpClientManager where
  configs : List (String × McpServerConfig) := []
  clients : List (String × McpClient) := []
deriving DecidableEq, Repr, Inhabited

/-- `Map.set` for the manager's name-keyed maps (update in place when the
key is present, append otherwise). -/
def mapSet {β : Type} : List (String × β) → String → β → List (String × β)
  | [], k, v => [(k, v)]
  | p :: rest, k, v => if p.1 = k then (k, v) :: rest else p :: mapSet rest k v

def McpClientManager.addServer (m : McpClientManager) (config : McpServerConfig) :
    McpClientManager :=
  { m with configs := mapSet m.configs config.name config }

/-- The client produced by a successful `connect` for config `name`
(its tool catalog as discovered at connect time, supplied by `net`). -/
def connectedClient (name : String) (tools : List String) : McpClient :=
  { serverName := name, isConnected := true, hasProcess := true
    processKilled := false, availableTools := tools }

/-- `connectAll`: one connection attempt per registered config; an attempt
that fails (`connectOk name = false`) is caught, logged and skipped, never
aborting the others (`Promise.allSettled`); successful attempts `set`
their client.  Concurrent settlement order only affects map order, which
is modelled as registration order. -/
def McpClientManager.connectAll (m : McpClientManager)
    (connectOk : String → Bool) (toolsOf : String → List String) : McpClientManager :=
  { m with clients :=
      (m.configs.foldl
        (fun cl p =>
          if connectOk p.1 then mapSet cl p.1 (connectedClient p.1 (toolsOf p.1)) else cl)
        m.clients) }

def McpClientManager.listConnectedServers (m : McpClientManager) : List String :=
  (m.clients.filter (fun p => p.2.isConnected)).map (fun p => p.1)

/-! ## Definitions taken from the specification's wording (for refinement
comparison against the code's definitions above).  These and only these
are written from the spec, not the source. -/

/-- Case-insensitive substring test (the spec's "case-insensitively
contains"); `t` is given in lower case. -/
def containsCI (s t : String) : Bool :=
  containsStr (lowerString s) t

/-- Spec section 4.3: one item's contribution to `falseScore`
(fact-check items matching "false"/"incorrect"; forensic items weighted
by the tampering probability when it exceeds 0.7). -/
def specFalseShare (item : EvidenceItem) (forensic : Option ℚ) : ℚ :=
  match item.type with
  | .fact_check =>
    if containsCI item.content "false" || containsCI item.content "incorrect" then
      item.confidence
    else 0
  | .forensic =>
    match forensic with
    | some tp => if tp > 7/10 then item.confidence * tp else 0
    | none => 0
  | _ => 0

/-- Spec section 4.3: one item's contribution to `trueScore` (the
"false" test is applied first, so a content matching both contributes to
`falseScore` only). -/
def specTrueShare (item : EvidenceItem) : ℚ :=
  match item.type with
  | .fact_check =>
    if containsCI item.content "false" || containsCI item.content "incorrect" then 0
    else if containsCI item.content "true" || containsCI item.content "correct" then
      item.confidence
    else 0
  | _ => 0

/-- The spec's weighted-score `synthesizeVerdict(items, forensic?)`
(section 4.3), returning the verdict together with its confidence. -/
def specSynthesizeVerdict (items : List EvidenceItem) (forensic : Option ℚ) :
    Verdict × ℚ :=
  let totalWeight := (items.map (fun e => e.confidence)).sum
  let falseScore := (items.map (fun e => specFalseShare e forensic)).sum
  let trueScore := (items.map specTrueShare).sum
  if totalWeight = 0 then (.UNVERIFIED, 1/2)
  else
    let trueFrac := trueScore / totalWeight
    let falseFrac := falseScore / totalWeight
    if falseFrac > 3/5 then (.FALSE, min falseFrac (19/20))
    else if trueFrac > 3/5 then (.TRUE, min trueFrac (19/20))
    else if trueFrac > 3/10 ∧ falseFrac > 3/10 then
      (.MIXED, min ((trueFrac + falseFrac)/2) (4/5))
    else (.UNVERIFIED, 1/2)

/-- The fixed event-type table claimed for `buildTimeline` (spec section
4.3); the spec lists no entry for `archive`, which is mapped to the
code's default. -/
def specEventType : EvidenceType → EventType
  | .forensic => .modification
  | .reverse_image => .first_appearance
  | .web_search => .spread
  | .fact_check => .fact_check
  | .archive => .spread

def requestContentJson (c : RequestContent) : Json :=
  .jobj (optField "claim" (c.claim.map .jstr)
    ++ optField "media_url" (c.media_url.map .jstr)
    ++ optField "context" (c.context.map .jstr)
    ++ optField "source_url" (c.source_url.map .jstr))

/-- The canonical serialization claimed for the signed artifact (spec
section 3): exactly the fields
`{id, verdict, confidence, evidence_chain, timestamp, original_request}`. -/
def specArtifactJson (id : String) (verdict : Verdict) (confidence : ℚ)
    (evidence_chain : List EvidenceItem) (timestamp : Nat)
    (original_request : RequestContent) : Json :=
  .jobj [ ("id", .jstr id)
        , ("verdict", .jstr (verdictStr verdict))
        , ("confidence", .jnum confidence)
        , ("evidence_chain", .jarr (evidence_chain.map evidenceItemJson))
        , ("timestamp", .jnum timestamp)
        , ("original_request", requestContentJson original_request) ]

/-! ## Lemmas about first-occurrence deduplication -/

theorem dedupByGo_sublist {α κ : Type} (key : α → κ) [DecidableEq κ]
    (seen : List κ) (l : List α) : (dedupByGo key seen l).Sublist l := by
  induction l generalizing seen with
  | nil => simp [dedupByGo]
  | cons x xs ih =>
    simp only [dedupByGo]
    split
    · exact (ih seen).cons x
    · exact (ih _).cons₂ x

theorem dedupByGo_key_not_mem_seen {α κ : Type} (key : α → κ) [DecidableEq κ]
    (seen : List κ) (l : List α) :
    ∀ y ∈ dedupByGo key seen l, key y ∉ seen := by
  induction l generalizing seen with
  | nil => simp [dedupByGo]
  | cons x xs ih =>
    intro y hy
    simp only [dedupByGo] at hy
    split at hy
    · exact ih seen y hy
    · rcases List.mem_cons.mp hy with h | h
      · subst h; assumption
      · have := ih (key x :: seen) y h
        exact fun hmem => this (List.mem_cons_of_mem _ hmem)

theorem dedupByGo_nodup_keys {α κ : Type} (key : α → κ) [DecidableEq κ]
    (seen : List κ) (l : List α) :
    ((dedupByGo key seen l).map key).Nodup := by
  induction l generalizing seen with
  | nil => simp [dedupByGo]
  | cons x xs ih =>
    simp only [dedupByGo]
    split
    · exact ih seen
    · rw [List.map_cons, List.nodup_cons]
      refine ⟨?_, ih _⟩
      intro hmem
      rcases List.mem_map.mp hmem with ⟨y, hy, hk⟩
      exact dedupByGo_key_not_mem_seen key _ xs y hy (hk ▸ List.mem_cons_self _ _)

theorem dedupByGo_covers {α κ : Type} (key : α → κ) [DecidableEq κ]
    (seen : List κ) (l : List α) :
    ∀ x ∈ l, key x ∈ seen ∨ key x ∈ (dedupByGo key seen l).map key := by
  induction l generalizing seen with
  | nil => simp
  | cons a xs ih =>
    intro x hx
    simp only [dedupByGo]
    rcases List.mem_cons.mp hx with h | h
    · subst h
      by_cases hmem : key x ∈ seen
      · exact Or.inl hmem
      · right
        simp [hmem]
    · by_cases hmem : key a ∈ seen
      · rw [if_pos hmem]
        exact ih seen x h
      · rw [if_neg hmem]
        rcases ih (key a :: seen) x h with hseen | hout
        · rcases List.mem_cons.mp hseen with heq | hseen'
          · right
            rw [List.map_cons, heq]
            exact List.mem_cons_self _ _
          · exact Or.inl hseen'
        · right
          rw [List.map_cons]
          exact List.mem_cons_of_mem _ hout

theorem dedupByGo_first_kept {α κ : Type} (key : α → κ) [DecidableEq κ]
    (l₁ : List α) (x : α) (l₂ : List α) (seen : List κ)
    (hseen : key x ∉ seen) (hfirst : key x ∉ l₁.map key) :
    x ∈ dedupByGo key seen (l₁ ++ x :: l₂) := by
  induction l₁ generalizing seen with
  | nil =>
    simp only [List.nil_append, dedupByGo]
    simp [hseen]
  | cons y ys ih =>
    have hxy : key x ≠ key y := by
      intro h
      exact hfirst (by simp [h])
    have hfirst' : key x ∉ ys.map key := fun h => hfirst (by simp [h])
    simp only [List.cons_append, dedupByGo]
    split
    · exact ih seen hseen hfirst'
    · exact List.mem_cons_of_mem _
        (ih (key y :: seen) (by simp [hxy, hseen]) hfirst')

/-- Distinct members of a key-deduplicated list have distinct keys. -/
theorem dedupBy_key_injOn {α κ : Type} (key : α → κ) [DecidableEq κ] (l : List α) :
    ∀ a ∈ dedupBy key l, ∀ b ∈ dedupBy key l, key a = key b → a = b := by
  have h := dedupByGo_nodup_keys key [] l
  exact fun a ha b hb hk => List.inj_on_of_nodup_map h ha hb hk

/-! ## Lemmas about the stable sort -/

theorem jsSortInsert_perm {α : Type} (le : α → α → Bool) (x : α) (l : List α) :
    (jsSortInsert le x l).Perm (x :: l) := by
  induction l with
  | nil => simp [jsSortInsert]
  | cons y ys ih =>
    simp only [jsSortInsert]
    split
    · exact List.Perm.refl _
    · exact (ih.cons y).trans (List.Perm.swap x y ys)

theorem jsSort_perm {α : Type} (le : α → α → Bool) (l : List α) :
    (jsSort le l).Perm l := by
  induction l with
  | nil => simp [jsSort]
  | cons x xs ih =>
    simp only [jsSort]
    exact (jsSortInsert_perm le x (jsSort le xs)).trans (ih.cons x)

theorem jsSortInsert_pairwise {α : Type} (le : α → α → Bool)
    (htot : ∀ a b, le a b = true ∨ le b a = true)
    (htrans : ∀ a b c, le a b = true → le b c = true → le a c = true)
    (x : α) (l : List α) (hl : l.Pairwise (fun a b => le a b = true)) :
    (jsSortInsert le x l).Pairwise (fun a b => le a b = true) := by
  induction l with
  | nil => simp [jsSortInsert]
  | cons y ys ih =>
    rcases List.pairwise_cons.mp hl with ⟨hy, hys⟩
    simp only [jsSortInsert]
    split
    · rename_i hxy
      refine List.pairwise_cons.mpr ⟨?_, hl⟩
      intro z hz
      rcases List.mem_cons.mp hz with h | h
      · exact h ▸ hxy
      · exact htrans x y z hxy (hy z h)
    · rename_i hxy
      have hyx : le y x = true := by
        rcases htot x y with h | h
        · exact absurd h hxy
        · exact h
      refine List.pairwise_cons.mpr ⟨?_, ih hys⟩
      intro z hz
      have hz' := (jsSortInsert_perm le x ys).mem_iff.mp hz
      rcases List.mem_cons.mp hz' with h | h
      · exact h ▸ hyx
      · exact hy z h

theorem jsSort_pairwise {α : Type} (le : α → α → Bool)
    (htot : ∀ a b, le a b = true ∨ le b a = true)
    (htrans : ∀ a b c, le a b = true → le b c = true → le a c = true)
    (l : List α) : (jsSort le l).Pairwise (fun a b => le a b = true) := by
  induction l with
  | nil => simp [jsSort]
  | cons x xs ih =>
    simp only [jsSort]
    exact jsSortInsert_pairwise le htot htrans x (jsSort le xs) ih

/-- The comparator used by `generateTimeline`. -/
def tsLe (a b : EvidenceItem) : Bool :=
  decide (a.timestamp ≤ b.timestamp)

theorem sortByTimestamp_eq_jsSort (l : List EvidenceItem) :
    sortByTimestamp l = jsSort tsLe l := rfl

theorem sortByTimestamp_perm (l : List EvidenceItem) :
    (sortByTimestamp l).Perm l :=
  jsSort_perm tsLe l

theorem sortByTimestamp_pairwise (l : List EvidenceItem) :
    (sortByTimestamp l).Pairwise (fun a b => a.timestamp ≤ b.timestamp) := by
  have h := jsSort_pairwise tsLe
    (fun a b => by
      unfold tsLe
      rcases Nat.le_total a.timestamp b.timestamp with h | h
      · left; exact decide_eq_true h
      · right; exact decide_eq_true h)
    (fun a b c hab hbc => by
      unfold tsLe at *
      exact decide_eq_true (Nat.le_trans (of_decide_eq_true hab) (of_decide_eq_true hbc)))
    l
  exact h.imp (fun hab => of_decide_eq_true hab)

/-- Stability of the insertion step: relative order within one timestamp
class is untouched. -/
theorem jsSortInsert_filter_ts (t : Nat) (x : EvidenceItem) (l : List EvidenceItem) :
    (jsSortInsert tsLe x l).filter (fun e => decide (e.timestamp = t))
      = (x :: l).filter (fun e => decide (e.timestamp = t)) := by
  induction l with
  | nil => rfl
  | cons y ys ih =>
    simp only [jsSortInsert]
    by_cases hxy : tsLe x y = true
    · rw [if_pos hxy]
    · rw [if_neg hxy]
      rcases Decidable.em (x.timestamp = t) with hx | hx <;>
        rcases Decidable.em (y.timestamp = t) with hy | hy
      · exact absurd (decide_eq_true (le_of_eq (hx.trans hy.symm))) hxy
      · simp only [List.filter_cons, decide_eq_true_eq, hx, hy, if_true, if_false] at ih ⊢
        simp only [ih]
      · simp only [List.filter_cons, decide_eq_true_eq, hx, hy, if_true, if_false] at ih ⊢
        simp only [ih]
      · simp only [List.filter_cons, decide_eq_true_eq, hx, hy, if_true, if_false] at ih ⊢
        simp only [ih]

/-- Stability of `sortByTimestamp`: for every timestamp value the
subsequence of items carrying it is exactly that of the input. -/
theorem sortByTimestamp_filter_ts (t : Nat) (l : List EvidenceItem) :
    (sortByTimestamp l).filter (fun e => decide (e.timestamp = t))
      = l.filter (fun e => decide (e.timestamp = t)) := by
  induction l with
  | nil => rfl
  | cons x xs ih =>
    show (jsSortInsert tsLe x (jsSort tsLe xs)).filter _ = _
    rw [jsSortInsert_filter_ts]
    simp only [List.filter_cons]
    by_cases hx : x.timestamp = t
    · simp only [decide_eq_true_eq, hx, if_true]
      rw [show jsSort tsLe xs = sortByTimestamp xs from rfl, ih]
    · simp only [decide_eq_true_eq, hx, if_false]
      rw [show jsSort tsLe xs = sortByTimestamp xs from rfl, ih]

/-! ## Lemmas about timeline construction -/

theorem mkTimelineEvents_get? (l : List EvidenceItem) :
    ∀ (j i : Nat),
      (mkTimelineEvents j l).get? i = (l.get? i).map (fun e => mkTimelineEvent e (j + i)) := by
  induction l with
  | nil => intro j i; simp [mkTimelineEvents]
  | cons x xs ih =>
    intro j i
    cases i with
    | zero => simp [mkTimelineEvents]
    | succ n =>
      have harith : j + 1 + n = j + (n + 1) := by omega
      show (mkTimelineEvents (j + 1) xs).get? n = _
      rw [ih (j + 1) n, harith]
      rfl

theorem mkTimelineEvents_map_timestamp (l : List EvidenceItem) (j : Nat) :
    (mkTimelineEvents j l).map (fun e => e.timestamp) = l.map (fun e => e.timestamp) := by
  induction l generalizing j with
  | nil => rfl
  | cons x xs ih =>
    simp only [mkTimelineEvents, List.map_cons, ih]
    rfl

theorem mkTimelineEvents_length (l : List EvidenceItem) (j : Nat) :
    (mkTimelineEvents j l).length = l.length := by
  induction l generalizing j with
  | nil => rfl
  | cons x xs ih => simp [mkTimelineEvents, ih]

theorem generateTimeline_pairwise (l : List EvidenceItem) :
    (generateTimeline l).Pairwise (fun a b => a.timestamp ≤ b.timestamp) := by
  have hsorted := sortByTimestamp_pairwise l
  have hmap : (generateTimeline l).map (fun e => e.timestamp)
      = (sortByTimestamp l).map (fun e => e.timestamp) :=
    mkTimelineEvents_map_timestamp _ 0
  have h₁ : ((sortByTimestamp l).map (fun e => e.timestamp)).Pairwise (· ≤ ·) :=
    (List.pairwise_map).mpr hsorted
  have h₂ : ((generateTimeline l).map (fun e => e.timestamp)).Pairwise (· ≤ ·) := by
    rw [hmap]; exact h₁
  exact (List.pairwise_map).mp h₂

/-! ## Lemmas about the investigation store -/

theorem storeGet_storeSet_self (s : Store) (k : String) (v : Investigation) :
    storeGet (storeSet s k v) k = some v := by
  induction s with
  | nil => simp [storeSet, storeGet, List.find?]
  | cons p rest ih =>
    by_cases h : p.1 = k
    · simp [storeSet, h, storeGet, List.find?]
    · simp only [storeSet, if_neg h]
      simp only [storeGet, List.find?] at ih ⊢
      simp only [decide_eq_true_eq, h, decide_False]
      simpa using ih

theorem storeGet_storeSet_ne (s : Store) (k k' : String) (v : Investigation)
    (h : k' ≠ k) : storeGet (storeSet s k v) k' = storeGet s k' := by
  have h' : ¬ (k = k') := fun hk => h hk.symm
  induction s with
  | nil => simp [storeSet, storeGet, List.find?, h']
  | cons p rest ih =>
    by_cases hp : p.1 = k
    · simp only [storeSet, if_pos hp]
      simp only [storeGet, List.find?]
      have h1 : ¬ (k = k') := fun hk => h hk.symm
      have h2 : ¬ (p.1 = k') := by rw [hp]; exact h1
      simp [h1, h2]
    · simp only [storeSet, if_neg hp]
      simp only [storeGet, List.find?] at ih ⊢
      by_cases hq : p.1 = k'
      · simp [hq]
      · simpa [hq] using ih

theorem mem_keys_storeSet_self (s : Store) (k : String) (v : Investigation) :
    k ∈ (storeSet s k v).map (fun p => p.1) := by
  induction s with
  | nil => simp [storeSet]
  | cons p rest ih =>
    by_cases h : p.1 = k
    · simp [storeSet, h]
    · simp only [storeSet, if_neg h, List.map_cons]
      exact List.mem_cons_of_mem _ ih

theorem mem_keys_storeSet_of_mem (s : Store) (k k' : String) (v : Investigation)
    (h : k' ∈ s.map (fun p => p.1)) :
    k' ∈ (storeSet s k v).map (fun p => p.1) := by
  induction s with
  | nil => simp at h
  | cons p rest ih =>
    rw [List.map_cons] at h
    rcases List.mem_cons.mp h with he | hm
    · by_cases hp : p.1 = k
      · simp only [storeSet, if_pos hp, List.map_cons]
        exact (hp ▸ he : k' = k) ▸ List.mem_cons_self _ _
      · simp only [storeSet, if_neg hp, List.map_cons]
        exact he ▸ List.mem_cons_self _ _
    · by_cases hp : p.1 = k
      · simp only [storeSet, if_pos hp, List.map_cons]
        exact List.mem_cons_of_mem _ hm
      · simp only [storeSet, if_neg hp, List.map_cons]
        exact List.mem_cons_of_mem _ (ih hm)

/-! ## Key-freshness facts for the derived ids `id ++ "-media"`,
`id ++ "-fact"` -/

theorem string_append_ne_self (s t : String) (h : t.length ≠ 0) : s ++ t ≠ s := by
  intro heq
  have hl : (s ++ t).length = s.length := by rw [heq]
  rw [String.length_append] at hl
  omega

theorem string_append_right_ne (s t u : String) (h : t ≠ u) : s ++ t ≠ s ++ u := by
  intro heq
  apply h
  have hdata : (s ++ t).data = (s ++ u).data := by rw [heq]
  rw [String.data_append, String.data_append] at hdata
  have h2 := List.append_cancel_left hdata
  cases t with
  | mk td =>
    cases u with
    | mk ud => exact congrArg String.mk (by simpa using h2)

theorem media_id_ne (id : String) : id ++ "-media" ≠ id := by
  apply string_append_ne_self
  decide

theorem fact_id_ne (id : String) : id ++ "-fact" ≠ id := by
  apply string_append_ne_self
  decide

theorem media_id_ne_fact_id (id : String) : id ++ "-media" ≠ id ++ "-fact" := by
  apply string_append_right_ne
  decide

/-! ## Example data used by witnesses and counterexamples -/

def exA : EvidenceItem :=
  { id := "a", type := .fact_check, source := "s", content := "c"
    confidence := 1/2, timestamp := 0 }

def exB : EvidenceItem :=
  { id := "b", type := .web_search, source := "s2", content := "c2"
    confidence := 1/2, timestamp := 1 }

/-- Shares `(content, source)` with `exA` but differs elsewhere. -/
def exA2 : EvidenceItem :=
  { id := "a2", type := .fact_check, source := "s", content := "c"
    confidence := 3/4, timestamp := 2 }

def exDedupList : List EvidenceItem := [exA, exB, exA2]

def exFact : EvidenceItem :=
  { id := "e1", type := .fact_check, source := "fc", content := "c1"
    confidence := 1/2, timestamp := 0 }

def exReverse : EvidenceItem :=
  { id := "e2", type := .reverse_image, source := "ri", content := "c2"
    confidence := 1/2, timestamp := 1 }

/-- C2: deduplication keeps an item iff no earlier item shares its
`Hash(content ++ source)` key: the output is a subsequence of the input
(relative order preserved), kept items have pairwise distinct keys, every
input key is represented, the first occurrence of each key is kept, and —
for any input list, hence any permutation of a fixed multiset — no two
kept items share `(content, source)`. -/
theorem deduplicateEvidence_spec (l : List EvidenceItem) :
    (deduplicateEvidence l).Sublist l
    ∧ ((deduplicateEvidence l).map evidenceKey).Nodup
    ∧ (∀ x ∈ l, ∃ y ∈ deduplicateEvidence l, evidenceKey y = evidenceKey x)
    ∧ (∀ l₁ x l₂, l = l₁ ++ x :: l₂ → evidenceKey x ∉ l₁.map evidenceKey →
        x ∈ deduplicateEvidence l)
    ∧ (∀ a ∈ deduplicateEvidence l, ∀ b ∈ deduplicateEvidence l,
        a.content = b.content → a.source = b.source → a = b) := by
  refine ⟨dedupByGo_sublist _ [] l, dedupByGo_nodup_keys _ [] l, ?_, ?_, ?_⟩
  · intro x hx
    rcases dedupByGo_covers evidenceKey [] l x hx with h | h
    · simp at h
    · rcases List.mem_map.mp h with ⟨y, hy, hk⟩
      exact ⟨y, hy, hk⟩
  · intro l₁ x l₂ hdecomp hfirst
    subst hdecomp
    exact dedupByGo_first_kept evidenceKey l₁ x l₂ [] (by simp) hfirst
  · intro a ha b hb hc hs
    refine dedupBy_key_injOn evidenceKey l a ha b hb ?_
    unfold evidenceKey computeSha256
    rw [hc, hs]

/-- C2 witness: on `[exA, exB, exA2]` (where `exA2` duplicates `exA`'s
content and source) the first occurrence `exA` is kept and the kept keys
are distinct. -/
theorem deduplicateEvidence_spec_witness :
    exA ∈ deduplicateEvidence exDedupList
    ∧ ((deduplicateEvidence exDedupList).map evidenceKey).Nodup :=
  ⟨(deduplicateEvidence_spec exDedupList).2.2.2.1 [] exA [exB, exA2] rfl (by simp),
   (deduplicateEvidence_spec exDedupList).2.1⟩

/-- C3 counterexample: on `[exFact, exReverse]` the reverse-image item is
not the first event of the sorted timeline, so the code maps it to
`spread`, while the claimed fixed table maps `reverse_image` to
`first_appearance`. -/
theorem generateTimeline_table_counterexample :
    (generateTimeline [exFact, exReverse]).map (fun e => e.event_type)
      = [.fact_check, .spread]
    ∧ [specEventType exFact.type, specEventType exReverse.type]
      = [.fact_check, .first_appearance]
    ∧ EventType.spread ≠ EventType.first_appearance := by
  refine ⟨by decide, by decide, by decide⟩

/-- C3 amended: the generated timeline is non-decreasing by timestamp for
every input (hence for any permutation of a fixed list), has one event
per item, is a stable permutation of the input (ties preserve input
order), and the `i`-th event's type is `timelineEventType` of the `i`-th
sorted item — `fact_check → fact_check`, `forensic → modification`,
`reverse_image → first_appearance` *only at index 0* (else `spread`),
and `web_search`/`archive` → `spread`. -/
theorem generateTimeline_spec (l : List EvidenceItem) :
    (generateTimeline l).Pairwise (fun a b => a.timestamp ≤ b.timestamp)
    ∧ (generateTimeline l).length = l.length
    ∧ (sortByTimestamp l).Perm l
    ∧ (∀ t, (sortByTimestamp l).filter (fun e => decide (e.timestamp = t))
        = l.filter (fun e => decide (e.timestamp = t)))
    ∧ (∀ i, (generateTimeline l).get? i
        = ((sortByTimestamp l).get? i).map (fun e => mkTimelineEvent e i)) := by
  refine ⟨generateTimeline_pairwise l, ?_, sortByTimestamp_perm l,
    fun t => sortByTimestamp_filter_ts t l, ?_⟩
  · unfold generateTimeline
    rw [mkTimelineEvents_length]
    exact (sortByTimestamp_perm l).length_eq
  · intro i
    unfold generateTimeline
    rw [mkTimelineEvents_get? _ 0 i]
    simp [Nat.zero_add]

/-- C3 amended witness at a concrete list. -/
theorem generateTimeline_spec_witness :
    (generateTimeline [exReverse, exFact]).length = 2
    ∧ (sortByTimestamp [exReverse, exFact]).Perm [exReverse, exFact] := by
  have h := generateTimeline_spec [exReverse, exFact]
  exact ⟨by rw [h.2.1]; rfl, h.2.2.1⟩

/-! ## Example MCP clients -/

def exClientDisconnected : McpClient :=
  { serverName := "factcheck", isConnected := false, hasProcess := false
    processKilled := false, availableTools := [] }

def exClientConnected : McpClient :=
  { serverName := "factcheck", isConnected := true, hasProcess := true
    processKilled := false, availableTools := ["check_claim"] }

/-- C6: `callTool` on a non-connected client fails immediately with the
not-connected error and state unchanged; on a connected client whose
cached catalog misses the tool it fails with tool-not-found; in both
cases the outcome is independent of the network environment (no request
is issued), and the function is total (never blocks). -/
theorem callTool_guards (c : McpClient) (toolName : String)
    (net net' : Except String String) :
    (c.isConnected = false →
      McpClient.callTool c toolName net = (.error (.notConnected c.serverName), c))
    ∧ (c.isConnected = true → c.availableTools.contains toolName = false →
      McpClient.callTool c toolName net = (.error (.toolNotFound toolName c.serverName), c))
    ∧ ((c.isConnected = false ∨ c.availableTools.contains toolName = false) →
      McpClient.callTool c toolName net = McpClient.callTool c toolName net') := by
  refine ⟨?_, ?_, ?_⟩
  · intro h
    simp [McpClient.callTool, h]
  · intro h ht
    have ht' : ¬ toolName ∈ c.availableTools := by simpa using ht
    simp [McpClient.callTool, h, ht']
  · intro h
    rcases h with h | h
    · simp [McpClient.callTool, h]
    · have ht' : ¬ toolName ∈ c.availableTools := by simpa using h
      cases hic : c.isConnected <;> simp [McpClient.callTool, hic, ht']

/-- C6 witness: a freshly created (never connected) client fails with the
not-connected error whatever the network would answer. -/
theorem callTool_guards_witness :
    McpClient.callTool exClientDisconnected "check_claim" (.ok "x")
      = (.error (.notConnected "factcheck"), exClientDisconnected)
    ∧ McpClient.callTool exClientConnected "unknown_tool" (.ok "x")
      = (.error (.toolNotFound "unknown_tool" "factcheck"), exClientConnected) :=
  ⟨(callTool_guards exClientDisconnected "check_claim" (.ok "x") (.error "e")).1 rfl,
   (callTool_guards exClientConnected "unknown_tool" (.ok "x") (.error "e")).2.1 rfl rfl⟩

/-- C9: `ping` never throws (it is a total boolean function), answers
`false` whenever the client is not connected or the subprocess is gone or
the round trip fails, `true` exactly when connected with a live process
and a successful round trip, and never modifies the client state. -/
theorem ping_spec (c : McpClient) (net : Bool) :
    (McpClient.ping c net).2 = c
    ∧ ((McpClient.ping c net).1 = true ↔
        c.isConnected = true ∧ c.hasProcess = true ∧ net = true) := by
  cases hic : c.isConnected <;> cases hp : c.hasProcess <;>
    simp [McpClient.ping, hic, hp]

/-- C9 witness: a live connected client with a successful round trip
answers `true` with unchanged state; state is also unchanged for a dead
client. -/
theorem ping_spec_witness :
    (McpClient.ping exClientConnected true).1 = true
    ∧ (McpClient.ping exClientConnected true).2 = exClientConnected
    ∧ (McpClient.ping exClientDisconnected true).2 = exClientDisconnected :=
  ⟨(ping_spec exClientConnected true).2.mpr ⟨rfl, rfl, rfl⟩,
   (ping_spec exClientConnected true).1,
   (ping_spec exClientDisconnected true).1⟩

/-! ## Lemmas for `connectAll` -/

theorem mapSet_append_of_not_mem {β : Type} (m : List (String × β)) (k : String) (v : β)
    (h : k ∉ m.map (fun p => p.1)) : mapSet m k v = m ++ [(k, v)] := by
  induction m with
  | nil => rfl
  | cons p rest ih =>
    rw [List.map_cons] at h
    have hp : ¬ (p.1 = k) := fun he => h (he ▸ List.mem_cons_self _ _)
    simp only [mapSet, if_neg hp, List.cons_append]
    rw [ih (fun hm => h (List.mem_cons_of_mem _ hm))]

/-- `connectAll`'s fold, starting from an accumulator disjoint from the
pending config names, appends one client per successful connection. -/
theorem connectAll_fold (connectOk : String → Bool) (toolsOf : String → List String)
    (configs : List (String × McpServerConfig)) :
    ∀ (acc : List (String × McpClient)),
      (configs.map (fun p => p.1)).Nodup →
      (∀ p ∈ configs, p.1 ∉ acc.map (fun q => q.1)) →
      configs.foldl
        (fun cl p =>
          if connectOk p.1 then mapSet cl p.1 (connectedClient p.1 (toolsOf p.1)) else cl)
        acc
      = acc ++ (configs.filter (fun p => connectOk p.1)).map
          (fun p => (p.1, connectedClient p.1 (toolsOf p.1))) := by
  induction configs with
  | nil => intro acc _ _; simp
  | cons p rest ih =>
    intro acc hnodup hdisj
    rw [List.map_cons, List.nodup_cons] at hnodup
    simp only [List.foldl_cons]
    by_cases hok : connectOk p.1 = true
    · rw [if_pos hok]
      rw [mapSet_append_of_not_mem _ _ _ (hdisj p (List.mem_cons_self _ _))]
      rw [ih (acc ++ [(p.1, connectedClient p.1 (toolsOf p.1))]) hnodup.2 ?_]
      · simp [List.filter_cons, hok, List.append_assoc]
      · intro q hq
        rw [List.map_append]
        intro hmem
        rcases List.mem_append.mp hmem with hacc | hone
        · exact hdisj q (List.mem_cons_of_mem _ hq) hacc
        · have : q.1 = p.1 := by simpa using hone
        -- a later config with the head's name would violate Nodup
          exact hnodup.1 (this ▸ List.mem_map_of_mem (fun r => r.1) hq)
    · rw [if_neg hok]
      rw [ih acc hnodup.2 (fun q hq => hdisj q (List.mem_cons_of_mem _ hq))]
      simp [List.filter_cons, hok]

theorem length_filter_add_length_filter_not {α : Type} (l : List α) (p : α → Bool) :
    (l.filter p).length + (l.filter (fun a => !p a)).length = l.length := by
  induction l with
  | nil => rfl
  | cons x xs ih =>
    cases hx : p x <;> simp [List.filter_cons, hx, ← ih] <;> omega

/-- C7: `connectAll` over `k` registered configs of which `m` fail to
connect never raises (it is a total function on the manager), attempts
every config — each successfully connecting name ends up with a live
client — and holds exactly `k − m` clients afterwards, individual
failures never aborting the other attempts. -/
theorem connectAll_spec (m : McpClientManager)
    (connectOk : String → Bool) (toolsOf : String → List String)
    (hnodup : (m.configs.map (fun p => p.1)).Nodup)
    (hempty : m.clients = []) :
    ((m.connectAll connectOk toolsOf).clients.length
        = m.configs.length - (m.configs.filter (fun p => !connectOk p.1)).length)
    ∧ (∀ p ∈ m.configs, connectOk p.1 = true →
        p.1 ∈ (m.connectAll connectOk toolsOf).clients.map (fun q => q.1))
    ∧ (∀ q ∈ (m.connectAll connectOk toolsOf).clients, q.2.isConnected = true) := by
  have hfold := connectAll_fold connectOk toolsOf m.configs []
    hnodup (by simp)
  have hclients : (m.connectAll connectOk toolsOf).clients
      = (m.configs.filter (fun p => connectOk p.1)).map
          (fun p => (p.1, connectedClient p.1 (toolsOf p.1))) := by
    show (m.configs.foldl _ m.clients) = _
    rw [hempty]
    simpa using hfold
  refine ⟨?_, ?_, ?_⟩
  · rw [hclients, List.length_map]
    have hsum := length_filter_add_length_filter_not m.configs (fun p => connectOk p.1)
    omega
  · intro p hp hok
    rw [hclients]
    have : p ∈ m.configs.filter (fun p => connectOk p.1) :=
      List.mem_filter.mpr ⟨hp, hok⟩
    exact List.mem_map.mpr ⟨(p.1, connectedClient p.1 (toolsOf p.1)),
      List.mem_map_of_mem _ this, rfl⟩
  · intro q hq
    rw [hclients] at hq
    rcases List.mem_map.mp hq with ⟨p, _, hpq⟩
    rw [← hpq]
    rfl

def exConfigA : McpServerConfig := { name := "factcheck", command := "node", args := [] }
def exConfigB : McpServerConfig := { name := "video-forensics", command := "node", args := [] }
def exConfigC : McpServerConfig := { name := "web-fetch", command := "node", args := [] }

def exManager : McpClientManager :=
  (((({} : McpClientManager).addServer exConfigA).addServer exConfigB).addServer exConfigC)

/-- C7 witness: three registered configs, the middle one failing to spawn:
exactly two live connections, every successful name connected. -/
theorem connectAll_spec_witness :
    (exManager.connectAll (fun n => !(n == "video-forensics")) (fun _ => [])).clients.length
      = 2
    ∧ "factcheck" ∈ (exManager.connectAll (fun n => !(n == "video-forensics"))
        (fun _ => [])).clients.map (fun q => q.1) := by
  have h := connectAll_spec exManager (fun n => !(n == "video-forensics")) (fun _ => [])
    (by decide) rfl
  refine ⟨by rw [h.1]; rfl, h.2.1 ("factcheck", exConfigA) (by decide) (by decide)⟩

/-! ## C8 and C1: verdict synthesis and confidence -/

def exScenarioA : EvidenceItem :=
  { id := "sA", type := .fact_check, source := "factchecker.example"
    content := "This claim is false", confidence := 9/10, timestamp := 0 }

def exForensic08 : ForensicResult := { tampering_probability := some (4/5) }

def exForensicLow : ForensicResult := { tampering_probability := some (1/5) }

def exReqC8 : InvestigationRequest :=
  { type := .media_analysis, content := { claim := some "c", media_url := some "m" } }

def exEnvC8 : Env :=
  { now := 0, genId := "g", invId := "inv1"
    factcheck := some (.ok { verdict := some .TRUE }) }

/-- C8 counterexample: a media analysis whose fact-check tool returns a
bare verdict (no evidence array), with no forensic and no reverse-search
clients, produces an *empty* evidence chain yet verdict `TRUE` (the
verdict is taken from the fact-check result, not synthesized from the
evidence); only the confidence is 0.5. -/
theorem emptyEvidence_counterexample :
    ((performMediaAnalysis "id0" exReqC8 exEnvC8 []).1.map
        (fun inv => (inv.evidence_chain, inv.verdict, inv.confidence)))
      = .ok ([], Verdict.TRUE, 1/2)
    ∧ Verdict.TRUE ≠ Verdict.UNVERIFIED := by
  exact ⟨rfl, by decide⟩

/-- C8 amended: on an empty evidence list the confidence is always 0.5,
and the verdict is `UNVERIFIED` exactly when neither a fact-check verdict
nor a forensic tampering probability above 0.3 is present — the verdict
is computed from the fact-check and forensic results, not from the
evidence list. -/
theorem emptyEvidence_spec :
    (∀ f, calculateOverallConfidence [] f = 1/2)
    ∧ synthesizeVerdict none none = .UNVERIFIED
    ∧ (∀ f, tamperingProbOf f ≤ 3/10 → synthesizeVerdict (some f) none = .UNVERIFIED)
    ∧ (∀ fc, fc.verdict = none → synthesizeVerdict none (some fc) = .UNVERIFIED) := by
  refine ⟨?_, by decide, ?_, ?_⟩
  · intro f
    simp [calculateOverallConfidence]
  · intro f h
    have h1 : ¬ (tamperingProbOf f > 7/10) := by
      intro hgt
      have : (3:ℚ)/10 < 7/10 := by norm_num
      linarith
    have h2 : ¬ (tamperingProbOf f > 3/10) := not_lt.mpr h
    simp [synthesizeVerdict, h1, h2]
  · intro fc h
    simp [synthesizeVerdict, h]

/-- C8 amended witness. -/
theorem emptyEvidence_spec_witness :
    calculateOverallConfidence [] (some exForensic08) = 1/2
    ∧ synthesizeVerdict (some exForensicLow) none = .UNVERIFIED :=
  ⟨emptyEvidence_spec.1 (some exForensic08),
   emptyEvidence_spec.2.2.1 exForensicLow
     (by norm_num [tamperingProbOf, exForensicLow, jsOrQ, jsD])⟩

/-- C1 counterexample: on the claim's own Scenario A input — a single
fact-check item with confidence 0.9 and content containing "false" —
the spec's weighted-score algorithm yields (`FALSE`, 0.95), but the
code's confidence is the plain average 0.9, and the code's
`synthesizeVerdict` never reads evidence content at all (with no
fact-check payload and no forensic result it answers `UNVERIFIED`
regardless of the evidence list). -/
theorem weightedScore_counterexample :
    specSynthesizeVerdict [exScenarioA] none = (.FALSE, 19/20)
    ∧ calculateOverallConfidence [exScenarioA] none = 9/10
    ∧ ((9:ℚ)/10 ≠ 19/20)
    ∧ synthesizeVerdict none none = .UNVERIFIED := by
  have hf1 : containsCI "This claim is false" "false" = true := by decide
  refine ⟨?_, ?_, by norm_num, rfl⟩
  · norm_num [specSynthesizeVerdict, specFalseShare, specTrueShare, exScenarioA,
      hf1, min_def]
  · norm_num [calculateOverallConfidence, exScenarioA]

/-- C1 amended: the code does not implement the weighted-score
algorithm.  `synthesizeVerdict` ignores the evidence list: it passes a
fact-check verdict through when present, otherwise thresholds the
forensic tampering probability (>0.7 ⇒ FALSE, >0.3 ⇒ MIXED, else
UNVERIFIED), else UNVERIFIED.  `calculateOverallConfidence` is 0.5 on
empty evidence, else the mean of the evidence confidences, averaged with
`1 − (tampering probability, default 0.5)` when a forensic result is
present; on Scenario A it yields 0.9, not 0.95. -/
theorem synthesizeVerdict_spec :
    (∀ f fc v, fc.verdict = some v → synthesizeVerdict f (some fc) = v)
    ∧ (∀ (f : ForensicResult) (fc : Option FactCheckToolResult),
        fc.bind (fun r => r.verdict) = none → tamperingProbOf f > 7/10 →
        synthesizeVerdict (some f) fc = .FALSE)
    ∧ (∀ (f : ForensicResult) (fc : Option FactCheckToolResult),
        fc.bind (fun r => r.verdict) = none →
        tamperingProbOf f ≤ 7/10 → tamperingProbOf f > 3/10 →
        synthesizeVerdict (some f) fc = .MIXED)
    ∧ (∀ (f : ForensicResult) (fc : Option FactCheckToolResult),
        fc.bind (fun r => r.verdict) = none → tamperingProbOf f ≤ 3/10 →
        synthesizeVerdict (some f) fc = .UNVERIFIED)
    ∧ (∀ (es : List EvidenceItem) (f : ForensicResult), es ≠ [] →
        calculateOverallConfidence es (some f)
          = ((es.map (fun e => e.confidence)).sum / es.length
              + (1 - jsD (jsOrQ f.tampering_probability f.manipulationProbability) (1/2)))
            / 2)
    ∧ (∀ (es : List EvidenceItem), es ≠ [] →
        calculateOverallConfidence es none
          = (es.map (fun e => e.confidence)).sum / es.length)
    ∧ calculateOverallConfidence [exScenarioA] none = 9/10 := by
  refine ⟨?_, ?_, ?_, ?_, ?_, ?_,
    by norm_num [calculateOverallConfidence, exScenarioA]⟩
  · intro f fc v h
    simp [synthesizeVerdict, h]
  · intro f fc h hgt
    simp [synthesizeVerdict, h, hgt]
  · intro f fc h hle hgt
    have h1 : ¬ (tamperingProbOf f > 7/10) := not_lt.mpr hle
    simp [synthesizeVerdict, h, h1, hgt]
  · intro f fc h hle
    have h1 : ¬ (tamperingProbOf f > 7/10) := by
      intro hgt
      have : (3:ℚ)/10 < 7/10 := by norm_num
      linarith
    have h2 : ¬ (tamperingProbOf f > 3/10) := not_lt.mpr hle
    simp [synthesizeVerdict, h, h1, h2]
  · intro es f hne
    have hlen : ¬ (es.length = 0) := fun h => hne (List.length_eq_zero.mp h)
    simp [calculateOverallConfidence, hlen]
  · intro es hne
    have hlen : ¬ (es.length = 0) := fun h => hne (List.length_eq_zero.mp h)
    simp [calculateOverallConfidence, hlen]

/-- C1 amended witness. -/
theorem synthesizeVerdict_spec_witness :
    synthesizeVerdict (some exForensic08) (some { verdict := some .TRUE }) = .TRUE
    ∧ synthesizeVerdict (some exForensic08) none = .FALSE
    ∧ calculateOverallConfidence [exScenarioA] (some exForensic08)
        = ((9:ℚ)/10 + (1 - 4/5)) / 2 :=
  ⟨synthesizeVerdict_spec.1 (some exForensic08) { verdict := some .TRUE } .TRUE rfl,
   synthesizeVerdict_spec.2.1 exForensic08 none rfl
     (by norm_num [tamperingProbOf, exForensic08, jsOrQ, jsD]),
   by
    have h := synthesizeVerdict_spec.2.2.2.2.1 [exScenarioA] exForensic08 (by simp)
    rw [h]
    norm_num [exScenarioA, exForensic08, jsOrQ, jsD]⟩

/-! ## C5: error propagation and the store -/

theorem performFactCheck_error_store (id : String) (req : InvestigationRequest)
    (env : Env) (store : Store) (e : String)
    (herr : (performFactCheck id req env store).1 = .error e) :
    (performFactCheck id req env store).2 = store := by
  unfold performFactCheck at *
  cases h : factOutcome id req env with
  | error e' => simp [h]
  | ok result => simp [h] at herr

theorem performMediaAnalysis_error_store (id : String) (req : InvestigationRequest)
    (env : Env) (store : Store) (e : String)
    (herr : (performMediaAnalysis id req env store).1 = .error e) :
    (performMediaAnalysis id req env store).2 = store := by
  unfold performMediaAnalysis at *
  cases h : mediaOutcome id req env with
  | error e' => simp [h]
  | ok result => simp [h] at herr

theorem performFullInvestigation_error_frame (id : String) (req : InvestigationRequest)
    (env : Env) (store : Store) (e : String)
    (herr : (performFullInvestigation id req env store).1 = .error e) :
    ∀ k, k ≠ id ++ "-media" → k ≠ id ++ "-fact" →
      storeGet (performFullInvestigation id req env store).2 k = storeGet store k := by
  intro k hkm _hkf
  unfold performFullInvestigation at herr ⊢
  by_cases hcm : req.content.claim = none ∧ req.content.media_url = none
  · rw [if_pos hcm]
  · rw [if_neg hcm] at herr ⊢
    cases hmu : req.content.media_url with
    | none =>
      simp only [hmu] at herr ⊢
      cases hc : req.content.claim with
      | none => exact absurd ⟨hc, hmu⟩ hcm
      | some claim =>
        simp only [hc] at herr ⊢
        cases hf : factOutcome (id ++ "-fact") (factSubRequest req claim) env with
        | error e' => simp only [hf]
        | ok finv => simp only [hf] at herr; simp at herr
    | some media_url =>
      simp only [hmu] at herr ⊢
      cases hm : mediaOutcome (id ++ "-media") (mediaSubRequest req media_url) env with
      | error e' => simp only [hm]
      | ok minv =>
        simp only [hm] at herr ⊢
        cases hc : req.content.claim with
        | none => simp only [hc] at herr; simp at herr
        | some claim =>
          simp only [hc] at herr ⊢
          cases hf : factOutcome (id ++ "-fact") (factSubRequest req claim) env with
          | error e' =>
            simp only [hf]
            exact storeGet_storeSet_ne store (id ++ "-media") k minv hkm
          | ok finv => simp only [hf] at herr; simp at herr

/-- C5 amended: `investigate` catches, logs and rethrows the *original*
error unchanged (there is no `InvestigationFailed` wrapper), and on error
nothing is ever stored under the top-level investigation id — but a full
investigation stores its sub-pipeline results as it goes, so entries
under `id-media` (and `id-fact`) may survive a failed run; every other
key of the store is untouched. -/
theorem investigate_error_spec (req : InvestigationRequest) (env : Env) (store : Store)
    (e : String) (herr : (investigate req env store).1 = .error e) :
    (req.type ≠ .full_investigation → (investigate req env store).2 = store)
    ∧ storeGet (investigate req env store).2 env.invId = storeGet store env.invId
    ∧ (∀ k, k ≠ env.invId ++ "-media" → k ≠ env.invId ++ "-fact" →
        storeGet (investigate req env store).2 k = storeGet store k) := by
  cases ht : req.type with
  | fact_check =>
    have hs : (investigate req env store).2 = store := by
      have herr' : (performFactCheck env.invId req env store).1 = .error e := by
        rw [investigate, ht] at herr; exact herr
      rw [investigate, ht]
      exact performFactCheck_error_store _ _ _ _ _ herr'
    exact ⟨fun _ => hs, by rw [hs], fun k _ _ => by rw [hs]⟩
  | media_analysis =>
    have hs : (investigate req env store).2 = store := by
      have herr' : (performMediaAnalysis env.invId req env store).1 = .error e := by
        rw [investigate, ht] at herr; exact herr
      rw [investigate, ht]
      exact performMediaAnalysis_error_store _ _ _ _ _ herr'
    exact ⟨fun _ => hs, by rw [hs], fun k _ _ => by rw [hs]⟩
  | full_investigation =>
    have herr' : (performFullInvestigation env.invId req env store).1 = .error e := by
      rw [investigate, ht] at herr; exact herr
    have hframe := performFullInvestigation_error_frame env.invId req env store e herr'
    refine ⟨fun hne => absurd rfl hne, ?_, ?_⟩
    · rw [investigate, ht]
      exact hframe env.invId (Ne.symm (media_id_ne env.invId))
        (Ne.symm (fact_id_ne env.invId))
    · intro k hkm hkf
      rw [investigate, ht]
      exact hframe k hkm hkf

def exEnvC5 : Env := { now := 0, genId := "g", invId := "inv1" }

def exReqC5 : InvestigationRequest :=
  { type := .full_investigation
    content := { claim := some "c", media_url := some "m" } }

/-- C5 counterexample: a full investigation whose media stage succeeds and
whose fact-check stage then throws (no `factcheck` client) surfaces the
*original* error message — not an `InvestigationFailed` wrapper — and the
store is *not* unchanged: the partial sub-investigation `inv1-media` has
been stored. -/
theorem investigate_error_counterexample :
    (investigate exReqC5 exEnvC5 []).1 = .error "FactCheck MCP server not available"
    ∧ listInvestigations (investigate exReqC5 exEnvC5 []).2 = ["inv1-media"]
    ∧ ["inv1-media"] ≠ ([] : List String) := by
  exact ⟨rfl, rfl, by decide⟩

/-- C5 amended witness: the same failing run leaves the top-level id and
unrelated keys unmapped. -/
theorem investigate_error_spec_witness :
    storeGet (investigate exReqC5 exEnvC5 []).2 "inv1" = storeGet [] "inv1"
    ∧ storeGet (investigate exReqC5 exEnvC5 []).2 "other" = storeGet [] "other" := by
  have h := investigate_error_spec exReqC5 exEnvC5 []
    "FactCheck MCP server not available" rfl
  exact ⟨h.2.1, h.2.2 "other" (by decide) (by decide)⟩

/-! ## C10: a successful combined investigation stores three records -/

/-- C10: a `full_investigation` request carrying both a claim and a media
URL, whose fact-check tool call succeeds (forensic/reverse-search
failures are swallowed and cannot abort the run), stores exactly three
investigations in one `investigate` call — the combined result under its
id and the sub-pipeline results under `id ++ "-media"` and
`id ++ "-fact"` — all three retrievable via `getInvestigation` and
listed by `listInvestigations`, while every other key of the store is
left untouched. -/
theorem fullInvestigation_stores_three (req : InvestigationRequest) (env : Env)
    (store : Store) (c m : String) (fc : FactCheckToolResult)
    (htype : req.type = .full_investigation)
    (hclaim : req.content.claim = some c)
    (hmedia : req.content.media_url = some m)
    (hfc : env.factcheck = some (.ok fc)) :
    ∃ inv minv finv,
      (investigate req env store).1 = .ok inv
      ∧ getInvestigation (investigate req env store).2 env.invId = some inv
      ∧ getInvestigation (investigate req env store).2 (env.invId ++ "-media") = some minv
      ∧ getInvestigation (investigate req env store).2 (env.invId ++ "-fact") = some finv
      ∧ env.invId ∈ listInvestigations (investigate req env store).2
      ∧ env.invId ++ "-media" ∈ listInvestigations (investigate req env store).2
      ∧ env.invId ++ "-fact" ∈ listInvestigations (investigate req env store).2
      ∧ (∀ k, k ≠ env.invId → k ≠ env.invId ++ "-media" → k ≠ env.invId ++ "-fact" →
          storeGet (investigate req env store).2 k = storeGet store k) := by
  have hmo : mediaOutcome (env.invId ++ "-media") (mediaSubRequest req m) env
      = .ok (mediaInvestigation (env.invId ++ "-media") m (mediaSubRequest req m) env
          (some fc)) := by
    unfold mediaOutcome mediaFactCheckOf mediaSubRequest
    simp [hclaim, hfc]
  have hfo : factOutcome (env.invId ++ "-fact") (factSubRequest req c) env
      = .ok (factInvestigation (env.invId ++ "-fact") c (factSubRequest req c) env fc) := by
    unfold factOutcome factSubRequest
    simp [hfc]
  set minv := mediaInvestigation (env.invId ++ "-media") m (mediaSubRequest req m) env
    (some fc) with hminv
  set finv := factInvestigation (env.invId ++ "-fact") c (factSubRequest req c) env fc
    with hfinv
  set inv := fullCombine env.invId req env (some minv) (some finv) with hinvdef
  have hcm : ¬ (req.content.claim = none ∧ req.content.media_url = none) := by
    simp [hclaim]
  have hred : performFullInvestigation env.invId req env store
      = (.ok inv,
         storeSet (storeSet (storeSet store (env.invId ++ "-media") minv)
           (env.invId ++ "-fact") finv) env.invId inv) := by
    unfold performFullInvestigation
    rw [if_neg hcm]
    simp only [hmedia, hmo, hclaim, hfo]
  have hdisp : investigate req env store = performFullInvestigation env.invId req env store := by
    unfold investigate
    rw [htype]
  rw [hdisp, hred]
  have hMneI : env.invId ++ "-media" ≠ env.invId := media_id_ne env.invId
  have hFneI : env.invId ++ "-fact" ≠ env.invId := fact_id_ne env.invId
  have hMneF : env.invId ++ "-media" ≠ env.invId ++ "-fact" := media_id_ne_fact_id env.invId
  refine ⟨inv, minv, finv, rfl, ?_, ?_, ?_, ?_, ?_, ?_, ?_⟩
  · exact storeGet_storeSet_self _ _ _
  · show storeGet _ _ = _
    rw [storeGet_storeSet_ne _ _ _ _ hMneI,
      storeGet_storeSet_ne _ _ _ _ hMneF,
      storeGet_storeSet_self]
  · show storeGet _ _ = _
    rw [storeGet_storeSet_ne _ _ _ _ hFneI,
      storeGet_storeSet_self]
  · exact mem_keys_storeSet_self _ _ _
  · exact mem_keys_storeSet_of_mem _ _ _ _
      (mem_keys_storeSet_of_mem _ _ _ _ (mem_keys_storeSet_self _ _ _))
  · exact mem_keys_storeSet_of_mem _ _ _ _ (mem_keys_storeSet_self _ _ _)
  · intro k hk hkm hkf
    rw [storeGet_storeSet_ne _ _ _ _ hk,
      storeGet_storeSet_ne _ _ _ _ hkf,
      storeGet_storeSet_ne _ _ _ _ hkm]

def exEnvC10 : Env :=
  { now := 0, genId := "g", invId := "inv2"
    factcheck := some (.ok { verdict := some .FALSE, confidence := some (4/5) }) }

def exReqC10 : InvestigationRequest :=
  { type := .full_investigation
    content := { claim := some "c", media_url := some "m" } }

/-- C10 witness: a concrete successful combined run. -/
theorem fullInvestigation_stores_three_witness :
    ∃ inv minv finv,
      (investigate exReqC10 exEnvC10 []).1 = .ok inv
      ∧ getInvestigation (investigate exReqC10 exEnvC10 []).2 "inv2" = some inv
      ∧ getInvestigation (investigate exReqC10 exEnvC10 []).2 ("inv2" ++ "-media")
          = some minv
      ∧ getInvestigation (investigate exReqC10 exEnvC10 []).2 ("inv2" ++ "-fact")
          = some finv
      ∧ "inv2" ∈ listInvestigations (investigate exReqC10 exEnvC10 []).2
      ∧ "inv2" ++ "-media" ∈ listInvestigations (investigate exReqC10 exEnvC10 []).2
      ∧ "inv2" ++ "-fact" ∈ listInvestigations (investigate exReqC10 exEnvC10 []).2
      ∧ (∀ k, k ≠ "inv2" → k ≠ "inv2" ++ "-media" → k ≠ "inv2" ++ "-fact" →
          storeGet (investigate exReqC10 exEnvC10 []).2 k = storeGet [] k) := by
  have h := fullInvestigation_stores_three exReqC10 exEnvC10 [] "c" "m"
    { verdict := some .FALSE, confidence := some (4/5) } rfl rfl rfl rfl
  exact h

/-! ## C4: the signed artifact's hashed bytes -/

/-- Shape of a successful full investigation (both stages succeed). -/
theorem performFull_success_shape (req : InvestigationRequest) (env : Env) (store : Store)
    (c m : String) (fc : FactCheckToolResult)
    (hclaim : req.content.claim = some c)
    (hmedia : req.content.media_url = some m)
    (hfc : env.factcheck = some (.ok fc)) :
    performFullInvestigation env.invId req env store
      = (.ok (fullCombine env.invId req env
            (some (mediaInvestigation (env.invId ++ "-media") m (mediaSubRequest req m)
              env (some fc)))
            (some (factInvestigation (env.invId ++ "-fact") c (factSubRequest req c)
              env fc))),
         storeSet
           (storeSet
             (storeSet store (env.invId ++ "-media")
               (mediaInvestigation (env.invId ++ "-media") m (mediaSubRequest req m)
                 env (some fc)))
             (env.invId ++ "-fact")
             (factInvestigation (env.invId ++ "-fact") c (factSubRequest req c) env fc))
           env.invId
           (fullCombine env.invId req env
             (some (mediaInvestigation (env.invId ++ "-media") m (mediaSubRequest req m)
               env (some fc)))
             (some (factInvestigation (env.invId ++ "-fact") c (factSubRequest req c)
               env fc)))) := by
  have hmo : mediaOutcome (env.invId ++ "-media") (mediaSubRequest req m) env
      = .ok (mediaInvestigation (env.invId ++ "-media") m (mediaSubRequest req m) env
          (some fc)) := by
    unfold mediaOutcome mediaFactCheckOf mediaSubRequest
    simp [hclaim, hfc]
  have hfo : factOutcome (env.invId ++ "-fact") (factSubRequest req c) env
      = .ok (factInvestigation (env.invId ++ "-fact") c (factSubRequest req c) env fc) := by
    unfold factOutcome factSubRequest
    simp [hfc]
  have hcm : ¬ (req.content.claim = none ∧ req.content.media_url = none) := by
    simp [hclaim]
  unfold performFullInvestigation
  rw [if_neg hcm]
  simp only [hmedia, hmo, hclaim, hfo]

/-- C4 amended: for a successful full investigation the stored artifact's
hash and signature are computed over the *same* canonical bytes, and
those bytes are the JSON serialization of exactly
`{claim, media_url, mediaAnalysis, factCheckAnalysis, evidence,
timestamp}` — reconstructible from the stored investigation (its
forensic analysis and evidence chain), the stored `id-fact`
sub-investigation, and the run's timestamp — so re-serializing and
re-hashing the stored data reproduces the stored hash.  The fields
`id`, `verdict` and `confidence` are *not* part of the hashed bytes. -/
theorem fullArtifact_hash_roundtrip (req : InvestigationRequest) (env : Env)
    (store : Store) (c m : String) (fc : FactCheckToolResult)
    (htype : req.type = .full_investigation)
    (hclaim : req.content.claim = some c)
    (hmedia : req.content.media_url = some m)
    (hfc : env.factcheck = some (.ok fc)) :
    ∀ inv, (investigate req env store).1 = .ok inv →
      ∃ bytes,
        inv.signed_artifact.sha256 = some (computeSha256 bytes)
        ∧ inv.signed_artifact.signature = some (signArtifact bytes)
        ∧ bytes = (fullArtifactJson req.content.claim req.content.media_url
            (some inv.forensic_analysis)
            (getInvestigation (investigate req env store).2 (env.invId ++ "-fact"))
            inv.evidence_chain env.now).render := by
  intro inv hinv
  have hdisp : investigate req env store
      = performFullInvestigation env.invId req env store := by
    unfold investigate
    rw [htype]
  have hred := performFull_success_shape req env store c m fc hclaim hmedia hfc
  rw [hdisp, hred] at hinv
  simp only at hinv
  have hfact : getInvestigation (investigate req env store).2 (env.invId ++ "-fact")
      = some (factInvestigation (env.invId ++ "-fact") c (factSubRequest req c) env fc) := by
    rw [hdisp, hred]
    show storeGet _ _ = _
    rw [storeGet_storeSet_ne _ _ _ _ (fact_id_ne env.invId),
      storeGet_storeSet_self]
  have hinv' : inv = fullCombine env.invId req env
      (some (mediaInvestigation (env.invId ++ "-media") m (mediaSubRequest req m) env
        (some fc)))
      (some (factInvestigation (env.invId ++ "-fact") c (factSubRequest req c) env fc)) :=
    (Except.ok.inj hinv).symm
  subst hinv'
  refine ⟨_, rfl, rfl, ?_⟩
  rw [hfact]
  rfl

def exEnvC4 : Env :=
  { now := 0, genId := "g", invId := "inv3", factcheck := some (.ok {}) }

def exReqC4 : InvestigationRequest :=
  { type := .full_investigation
    content := { claim := some "c", media_url := some "m" } }

def c4run : Except String Investigation × Store := investigate exReqC4 exEnvC4 []

def c4inv : Investigation :=
  match c4run.1 with
  | .ok inv => inv
  | .error _ => default

/-- C4 amended witness: the concrete run, with the round-trip equation
instantiated. -/
theorem fullArtifact_hash_roundtrip_witness :
    ∃ bytes,
      c4inv.signed_artifact.sha256 = some (computeSha256 bytes)
      ∧ c4inv.signed_artifact.signature = some (signArtifact bytes)
      ∧ bytes = (fullArtifactJson exReqC4.content.claim exReqC4.content.media_url
          (some c4inv.forensic_analysis)
          (getInvestigation (investigate exReqC4 exEnvC4 []).2 ("inv3" ++ "-fact"))
          c4inv.evidence_chain exEnvC4.now).render :=
  fullArtifact_hash_roundtrip exReqC4 exEnvC4 [] "c" "m" {} rfl rfl rfl rfl c4inv rfl

/-- C4 counterexample: in the same successful run the hashed bytes are
the serialization of `{claim, media_url, mediaAnalysis, factCheckAnalysis,
evidence, timestamp}` and *differ* from the serialization of the claimed
field set `{id, verdict, confidence, evidence_chain, timestamp,
original_request}`; with the collision-free digest model the stored hash
is therefore not `Hash` of the claimed canonical bytes. -/
theorem artifact_fields_counterexample :
    c4run.1 = .ok c4inv
    ∧ c4inv.signed_artifact.sha256
        = some (computeSha256 ((fullArtifactJson (some "c") (some "m")
            (some c4inv.forensic_analysis) (getInvestigation c4run.2 "inv3-fact")
            c4inv.evidence_chain 0).render))
    ∧ c4inv.signed_artifact.sha256
        ≠ some (computeSha256 ((specArtifactJson c4inv.id c4inv.verdict c4inv.confidence
            c4inv.evidence_chain 0 exReqC4.content).render)) := by
  refine ⟨rfl, ?_, ?_⟩
  · have hred := performFull_success_shape exReqC4 exEnvC4 [] "c" "m" {} rfl rfl rfl
    have hfact : getInvestigation c4run.2 "inv3-fact"
        = some (factInvestigation ("inv3" ++ "-fact") "c" (factSubRequest exReqC4 "c")
            exEnvC4 {}) := by
      show storeGet (investigate exReqC4 exEnvC4 []).2 "inv3-fact" = _
      have hstep : investigate exReqC4 exEnvC4 []
          = performFullInvestigation exEnvC4.invId exReqC4 exEnvC4 [] := rfl
      rw [hstep, hred]
      rw [show ("inv3-fact" : String) = exEnvC4.invId ++ "-fact" from rfl]
      rw [storeGet_storeSet_ne _ _ _ _ (fact_id_ne exEnvC4.invId), storeGet_storeSet_self]
      rfl
    rw [hfact]
    rfl
  · decide
